import Mathlib

/-!
Shallow embedding of the billing-service core of the `package-store` repository:
the order data model, the Order / WebhookEvent / PaymentAudit repositories,
the Stripe gateway adapter, the event publisher and the `BillingService`
orchestrator (`src/billing-service/src/application/billing_service.py` and
`src/billing-service/src/infrastructure/...`), together with theorems settling
the specification claims about them.

Modelling conventions:
* UUIDs are modelled as `Nat` (freshness via per-table counters in `DB`).
* `datetime` values are modelled as `Nat` timestamps; `datetime.now()` becomes
  an explicit `now` input carried by `World`.
* `Decimal` money amounts are modelled as `Nat` numbers of cents.
* The relational store is a `DB` record of lists; SQL `UPDATE ... WHERE` is a
  `List.map` guarded on the key, `SELECT ... scalar_one_or_none` is `List.find?`.
* Python exceptions are `Except PyErr`; `ValueError` and generic `Exception`
  are distinguished because the HTTP layer catches them differently.
* Outbound I/O (Stripe, broker) is modelled by a `World` oracle saying whether
  each call succeeds; every side effect is additionally appended to `DB.log`
  so that effect ordering is observable.
-/

inductive OrderStatus where
  | created
  | pending_payment
  | paid
  | failed
  | cancelled
deriving DecidableEq, Repr

def OrderStatus.str : OrderStatus → String
  | .created => "OrderStatus.CREATED"
  | .pending_payment => "OrderStatus.PENDING_PAYMENT"
  | .paid => "OrderStatus.PAID"
  | .failed => "OrderStatus.FAILED"
  | .cancelled => "OrderStatus.CANCELLED"

inductive PackageType where
  | basic
  | standard
  | premium
deriving DecidableEq, Repr

def PackageType.str : PackageType → String
  | .basic => "basic"
  | .standard => "standard"
  | .premium => "premium"

structure Order where
  id : Nat
  user_id : Nat
  package_type : PackageType
  amount : Nat
  currency : String
  status : OrderStatus
  stripe_payment_intent_id : Option String
  stripe_client_secret : Option String
  description : Option String
  extra_metadata : Option String
  created_at : Nat
  paid_at : Option Nat
deriving DecidableEq, Repr

structure WebhookEvent where
  id : Nat
  stripe_event_id : String
  event_type : String
  order_id : Option Nat
  processed : Bool
  processing_started_at : Option Nat
  processed_at : Option Nat
  error_message : Option String
  retry_count : Nat
  raw_payload : String
  created_at : Nat
deriving DecidableEq, Repr

structure PaymentAudit where
  order_id : Nat
  action : String
  old_status : Option OrderStatus
  new_status : OrderStatus
  stripe_event_id : Option String
  details : Option String
  created_at : Nat
deriving DecidableEq, Repr

/-- Domain events published on the broker (`domain/schemas.py`). -/
inductive DomainEvent where
  | orderCreated (order_id user_id : Nat) (package_type : PackageType)
      (amount : Nat) (currency : String) (created_at : Nat)
  | orderPaid (order_id user_id : Nat) (package_type : PackageType)
      (amount : Nat) (currency : String) (paid_at : Nat)
      (stripe_payment_intent_id : String)
  | orderFailed (order_id user_id : Nat) (reason : String) (failed_at : Nat)
deriving DecidableEq, Repr

/-- Observable side effects, appended to `DB.log` in the order they happen. -/
inductive Effect where
  | storeCreateOrder (order_id : Nat)
  | storeUpdateIntent (order_id : Nat)
  | storeUpdateStatus (order_id : Nat) (new_status : OrderStatus)
  | auditWrite (order_id : Nat) (action : String)
  | publish (ev : DomainEvent)
  | gatewayCreateIntent (order_id : Nat)
  | gatewayCancelIntent (intent_id : String)
  | webhookCreate (event_id : Nat)
  | webhookMarkProcessing (event_id : Nat)
  | webhookMarkProcessed (event_id : Nat) (ok : Bool)
  | webhookIncrementRetry (event_id : Nat)
deriving DecidableEq, Repr

/-- The relational store plus broker topic, as one state record. -/
structure DB where
  orders : List Order
  webhook_events : List WebhookEvent
  audits : List PaymentAudit
  published : List DomainEvent
  log : List Effect
  next_order_id : Nat
  next_webhook_event_id : Nat
deriving DecidableEq, Repr

/-- The empty database. -/
def DB.init : DB :=
  { orders := [], webhook_events := [], audits := [], published := [], log := []
    next_order_id := 0, next_webhook_event_id := 0 }

/-- Python exceptions: `ValueError` vs any other `Exception` (the HTTP layer
catches the two differently). -/
inductive PyErr where
  | valueError (msg : String)
  | exc (msg : String)
deriving DecidableEq, Repr

def PyErr.msg : PyErr → String
  | .valueError m => m
  | .exc m => m

namespace OrderRepository

/-- Row transformer of `update_status`: `values = {'status': new_status}` plus
`paid_at` only when the `paid_at` argument is truthy (`if paid_at:`). -/
def apply_status (order_id : Nat) (new_status : OrderStatus)
    (paid_at : Option Nat) (o : Order) : Order :=
  if o.id == order_id then
    if paid_at.isSome then { o with status := new_status, paid_at := paid_at }
    else { o with status := new_status }
  else o

/-- Row transformer of `update_payment_intent`. -/
def apply_intent (order_id : Nat) (payment_intent_id client_secret : String)
    (o : Order) : Order :=
  if o.id == order_id then
    { o with stripe_payment_intent_id := some payment_intent_id
             stripe_client_secret := some client_secret
             status := .pending_payment }
  else o

def create (db : DB) (now : Nat) (user_id : Nat) (package_type : PackageType)
    (amount : Nat) (currency : String) (description : Option String)
    (metadata : Option String) : DB × Order :=
  let order : Order :=
    { id := db.next_order_id, user_id, package_type, amount, currency
      status := .created, stripe_payment_intent_id := none
      stripe_client_secret := none, description, extra_metadata := metadata
      created_at := now, paid_at := none }
  ({ db with orders := db.orders ++ [order]
             next_order_id := db.next_order_id + 1
             log := db.log ++ [.storeCreateOrder order.id] }, order)

def get_by_id (db : DB) (order_id : Nat) : Option Order :=
  db.orders.find? (fun o => o.id == order_id)

def get_by_payment_intent_id (db : DB) (payment_intent_id : String) :
    Option Order :=
  db.orders.find? (fun o => o.stripe_payment_intent_id == some payment_intent_id)

/-- `get_user_orders`: the count is taken over the filtered query before the
order/limit/offset are applied; the page is ordered by `created_at` descending. -/
def get_user_orders (db : DB) (user_id : Nat) (limit : Nat) (offset : Nat)
    (status : Option OrderStatus) : List Order × Nat :=
  let matching := db.orders.filter (fun o =>
    o.user_id == user_id &&
      (match status with
       | none => true
       | some s => o.status == s))
  let total := matching.length
  let sorted := matching.mergeSort (fun a b => decide (b.created_at ≤ a.created_at))
  ((sorted.drop offset).take limit, total)

def update_payment_intent (db : DB) (order_id : Nat)
    (payment_intent_id client_secret : String) : DB × Option Order :=
  let orders := db.orders.map (apply_intent order_id payment_intent_id client_secret)
  ({ db with orders, log := db.log ++ [.storeUpdateIntent order_id] },
   orders.find? (fun o => o.id == order_id))

def update_status (db : DB) (order_id : Nat) (new_status : OrderStatus)
    (paid_at : Option Nat) : DB × Option Order :=
  let orders := db.orders.map (apply_status order_id new_status paid_at)
  ({ db with orders, log := db.log ++ [.storeUpdateStatus order_id new_status] },
   orders.find? (fun o => o.id == order_id))

end OrderRepository

namespace WebhookEventRepository

def create (db : DB) (now : Nat) (stripe_event_id : String) (event_type : String)
    (raw_payload : String) (order_id : Option Nat) : DB × WebhookEvent :=
  let event : WebhookEvent :=
    { id := db.next_webhook_event_id, stripe_event_id, event_type, order_id
      processed := false, processing_started_at := none, processed_at := none
      error_message := none, retry_count := 0, raw_payload, created_at := now }
  ({ db with webhook_events := db.webhook_events ++ [event]
             next_webhook_event_id := db.next_webhook_event_id + 1
             log := db.log ++ [.webhookCreate event.id] }, event)

def get_by_stripe_event_id (db : DB) (stripe_event_id : String) :
    Option WebhookEvent :=
  db.webhook_events.find? (fun e => e.stripe_event_id == stripe_event_id)

def mark_processing (db : DB) (now : Nat) (event_id : Nat) : DB :=
  { db with
    webhook_events := db.webhook_events.map (fun e =>
      if e.id == event_id then { e with processing_started_at := some now } else e)
    log := db.log ++ [.webhookMarkProcessing event_id] }

/-- Row transformer of `mark_processed`.  Note the source:
`'processed': error_message is None` — the row is flagged processed only when
there is no error; `order_id` is written only when truthy. -/
def apply_processed (event_id : Nat) (now : Nat) (order_id : Option Nat)
    (error_message : Option String) (e : WebhookEvent) : WebhookEvent :=
  if e.id == event_id then
    let e := { e with processed := error_message.isNone
                      processed_at := some now
                      error_message := error_message }
    if order_id.isSome then { e with order_id := order_id } else e
  else e

def mark_processed (db : DB) (now : Nat) (event_id : Nat)
    (order_id : Option Nat) (error_message : Option String) : DB :=
  { db with
    webhook_events :=
      db.webhook_events.map (apply_processed event_id now order_id error_message)
    log := db.log ++ [.webhookMarkProcessed event_id error_message.isNone] }

def increment_retry_count (db : DB) (event_id : Nat) : DB :=
  { db with
    webhook_events := db.webhook_events.map (fun e =>
      if e.id == event_id then { e with retry_count := e.retry_count + 1 } else e)
    log := db.log ++ [.webhookIncrementRetry event_id] }

end WebhookEventRepository

namespace PaymentAuditRepository

def log_action (db : DB) (now : Nat) (order_id : Nat) (action : String)
    (new_status : OrderStatus) (old_status : Option OrderStatus)
    (stripe_event_id : Option String) (details : Option String) :
    DB × PaymentAudit :=
  let audit : PaymentAudit :=
    { order_id, action, old_status, new_status, stripe_event_id, details
      created_at := now }
  ({ db with audits := db.audits ++ [audit]
             log := db.log ++ [.auditWrite order_id action] }, audit)

end PaymentAuditRepository

/-- Environment oracle for one orchestrator call: the current clock and the
outcome of the outbound Stripe / broker calls.  `create_intent_result = none`
models `stripe.error.StripeError` being raised by the provider. -/
structure World where
  now : Nat
  create_intent_result : Option (String × String)
  cancel_intent_ok : Bool
  broker_ok : Bool
deriving DecidableEq, Repr

/-- A verified provider webhook event (`stripe.Event`) as the orchestrator
reads it: id, type tag, the payment-intent id of `event.data.object`, the
already-parsed `metadata.order_id` (absent or malformed UUID both modelled as
`none`), and `last_payment_error.message` when present. -/
structure StripeEvent where
  id : String
  type : String
  payment_intent_id : String
  metadata_order_id : Option Nat
  last_payment_error_message : Option String
deriving DecidableEq, Repr

namespace StripeService

def create_payment_intent (w : World) (db : DB) (order_id : Nat) :
    DB × Except PyErr (String × String) :=
  let db := { db with log := db.log ++ [.gatewayCreateIntent order_id] }
  match w.create_intent_result with
  | some r => (db, .ok r)
  | none => (db, .error (.exc "Stripe error"))

def cancel_payment_intent (w : World) (db : DB) (payment_intent_id : String) :
    DB × Except PyErr Unit :=
  let db := { db with log := db.log ++ [.gatewayCancelIntent payment_intent_id] }
  if w.cancel_intent_ok then (db, .ok ()) else (db, .error (.exc "Stripe error"))

/-- `extract_order_id_from_event`: best-effort order-id parse from the event
metadata for `payment_intent.*` / `charge.*` events; anything missing or
malformed yields `none`. -/
def extract_order_id_from_event (event : StripeEvent) : Option Nat :=
  if event.type.startsWith "payment_intent." || event.type.startsWith "charge." then
    event.metadata_order_id
  else
    none

end StripeService

namespace OrderEventPublisher

def publish (w : World) (db : DB) (event : DomainEvent) : DB × Except PyErr Unit :=
  if w.broker_ok then
    ({ db with published := db.published ++ [event]
               log := db.log ++ [.publish event] }, .ok ())
  else
    (db, .error (.exc "publish failed"))

def publish_order_created (w : World) (db : DB) (event : DomainEvent) :
    DB × Except PyErr Unit := publish w db event

def publish_order_paid (w : World) (db : DB) (event : DomainEvent) :
    DB × Except PyErr Unit := publish w db event

def publish_order_failed (w : World) (db : DB) (event : DomainEvent) :
    DB × Except PyErr Unit := publish w db event

end OrderEventPublisher

/-- Package pricing table (`config.PackagePricing`), amounts in cents. -/
structure PackagePricing where
  basic_price : Nat := 999
  standard_price : Nat := 2999
  premium_price : Nat := 9999
deriving DecidableEq, Repr

structure PackageInfo where
  type : PackageType
  name : String
  price : Nat
  currency : String
deriving DecidableEq, Repr

namespace BillingService

def get_package_info (pricing : PackagePricing) (package_type : PackageType) :
    PackageInfo :=
  match package_type with
  | .basic =>
    { type := .basic, name := "Basic Package", price := pricing.basic_price
      currency := "USD" }
  | .standard =>
    { type := .standard, name := "Standard Package"
      price := pricing.standard_price, currency := "USD" }
  | .premium =>
    { type := .premium, name := "Premium Package"
      price := pricing.premium_price, currency := "USD" }

/-- `BillingService.create_order`.  The order row and the `order_created`
audit entry are committed before the gateway call; a gateway failure is
logged and re-raised with the database as already mutated. -/
def create_order (w : World) (db : DB) (pricing : PackagePricing)
    (user_id : Nat) (package_type : PackageType) (metadata : Option String) :
    DB × Except PyErr Order :=
  let package_info := get_package_info pricing package_type
  let (db, order) := OrderRepository.create db w.now user_id package_type
    package_info.price package_info.currency (some package_info.name) metadata
  let (db, _) := PaymentAuditRepository.log_action db w.now order.id
    "order_created" .created none none (some ("Package: " ++ package_type.str))
  match StripeService.create_payment_intent w db order.id with
  | (db, .error e) => (db, .error e)
  | (db, .ok (payment_intent_id, client_secret)) =>
    match OrderRepository.update_payment_intent db order.id
        payment_intent_id client_secret with
    | (db, none) => (db, .error (.exc "NoneType"))
    | (db, some order) =>
      let (db, _) := PaymentAuditRepository.log_action db w.now order.id
        "payment_intent_created" .pending_payment (some .created) none
        (some ("Payment Intent ID: " ++ payment_intent_id))
      match OrderEventPublisher.publish_order_created w db
          (.orderCreated order.id order.user_id order.package_type order.amount
            order.currency order.created_at) with
      | (db, .error e) => (db, .error e)
      | (db, .ok _) => (db, .ok order)

def get_order (db : DB) (order_id : Nat) (user_id : Nat) : Except PyErr Order :=
  match OrderRepository.get_by_id db order_id with
  | none => .error (.valueError "Order not found")
  | some order =>
    if order.user_id != user_id then .error (.valueError "Access denied")
    else .ok order

def get_user_orders (db : DB) (user_id : Nat) (page : Nat) (page_size : Nat)
    (status : Option OrderStatus) : List Order × Nat :=
  let offset := (page - 1) * page_size
  OrderRepository.get_user_orders db user_id page_size offset status

/-- `BillingService.cancel_order`.  The ownership and state checks precede any
side effect; a gateway cancellation failure is swallowed (logged only). -/
def cancel_order (w : World) (db : DB) (order_id : Nat) (user_id : Nat) :
    DB × Except PyErr Order :=
  match OrderRepository.get_by_id db order_id with
  | none => (db, .error (.valueError "Order not found"))
  | some order =>
    if order.user_id != user_id then (db, .error (.valueError "Access denied"))
    else if !(order.status == .created || order.status == .pending_payment) then
      (db, .error (.valueError
        ("Cannot cancel order with status " ++ order.status.str)))
    else
      let db :=
        match order.stripe_payment_intent_id with
        | some intent_id => (StripeService.cancel_payment_intent w db intent_id).1
        | none => db
      let old_status := order.status
      match OrderRepository.update_status db order.id .cancelled none with
      | (db, none) => (db, .error (.exc "NoneType"))
      | (db, some order) =>
        let (db, _) := PaymentAuditRepository.log_action db w.now order.id
          "order_cancelled" .cancelled (some old_status) none none
        (db, .ok order)

def handle_payment_succeeded (w : World) (db : DB) (event : StripeEvent)
    (webhook_event_id : Nat) : DB × Except PyErr Unit :=
  let payment_intent_id := event.payment_intent_id
  match OrderRepository.get_by_payment_intent_id db payment_intent_id with
  | none => (db, .ok ())
  | some order =>
    let db := WebhookEventRepository.mark_processed db w.now webhook_event_id
      (some order.id) none
    if order.status == .paid then (db, .ok ())
    else
      let old_status := order.status
      let paid_at := w.now
      match OrderRepository.update_status db order.id .paid (some paid_at) with
      | (db, none) => (db, .error (.exc "NoneType"))
      | (db, some order) =>
        let (db, _) := PaymentAuditRepository.log_action db w.now order.id
          "payment_succeeded" .paid (some old_status) (some event.id)
          (some ("Payment Intent: " ++ payment_intent_id))
        OrderEventPublisher.publish_order_paid w db
          (.orderPaid order.id order.user_id order.package_type order.amount
            order.currency paid_at payment_intent_id)

def handle_payment_failed (w : World) (db : DB) (event : StripeEvent)
    (webhook_event_id : Nat) : DB × Except PyErr Unit :=
  let payment_intent_id := event.payment_intent_id
  match OrderRepository.get_by_payment_intent_id db payment_intent_id with
  | none => (db, .ok ())
  | some order =>
    let db := WebhookEventRepository.mark_processed db w.now webhook_event_id
      (some order.id) none
    let old_status := order.status
    match OrderRepository.update_status db order.id .failed none with
    | (db, none) => (db, .error (.exc "NoneType"))
    | (db, some order) =>
      let error_message := event.last_payment_error_message.getD "Unknown error"
      let (db, _) := PaymentAuditRepository.log_action db w.now order.id
        "payment_failed" .failed (some old_status) (some event.id)
        (some ("Error: " ++ error_message))
      OrderEventPublisher.publish_order_failed w db
        (.orderFailed order.id order.user_id error_message w.now)

def handle_payment_canceled (w : World) (db : DB) (event : StripeEvent)
    (webhook_event_id : Nat) : DB × Except PyErr Unit :=
  let payment_intent_id := event.payment_intent_id
  match OrderRepository.get_by_payment_intent_id db payment_intent_id with
  | none => (db, .ok ())
  | some order =>
    let db := WebhookEventRepository.mark_processed db w.now webhook_event_id
      (some order.id) none
    let old_status := order.status
    match OrderRepository.update_status db order.id .cancelled none with
    | (db, none) => (db, .error (.exc "NoneType"))
    | (db, some order) =>
      let (db, _) := PaymentAuditRepository.log_action db w.now order.id
        "payment_canceled" .cancelled (some old_status) (some event.id) none
      (db, .ok ())

/-- Steps 2-5 of `process_webhook`: mark processing started, dispatch on the
event type, then mark the row processed — with the error message recorded and
the exception re-raised when the dispatch failed. -/
def process_webhook_dispatch (w : World) (db : DB) (stripe_event : StripeEvent)
    (webhook_row_id : Nat) : DB × Except PyErr Unit :=
  let db := WebhookEventRepository.mark_processing db w.now webhook_row_id
  let r :=
    if stripe_event.type == "payment_intent.succeeded" then
      handle_payment_succeeded w db stripe_event webhook_row_id
    else if stripe_event.type == "payment_intent.payment_failed" then
      handle_payment_failed w db stripe_event webhook_row_id
    else if stripe_event.type == "payment_intent.canceled" then
      handle_payment_canceled w db stripe_event webhook_row_id
    else (db, .ok ())
  match r with
  | (db, .ok _) =>
    (WebhookEventRepository.mark_processed db w.now webhook_row_id none none,
     .ok ())
  | (db, .error e) =>
    (WebhookEventRepository.mark_processed db w.now webhook_row_id none
      (some ("Error processing webhook: " ++ e.msg)), .error e)

/-- `BillingService.process_webhook`, step 1 (dedup lookup / retry bump /
row creation) followed by `process_webhook_dispatch`. -/
def process_webhook (w : World) (db : DB) (stripe_event : StripeEvent)
    (raw_payload : String) : DB × Except PyErr Unit :=
  let event_id := stripe_event.id
  let event_type := stripe_event.type
  match WebhookEventRepository.get_by_stripe_event_id db event_id with
  | some existing_event =>
    if existing_event.processed then (db, .ok ())
    else
      let db := WebhookEventRepository.increment_retry_count db existing_event.id
      process_webhook_dispatch w db stripe_event existing_event.id
  | none =>
    let order_id := StripeService.extract_order_id_from_event stripe_event
    let (db, existing_event) := WebhookEventRepository.create db w.now event_id
      event_type raw_payload order_id
    process_webhook_dispatch w db stripe_event existing_event.id

end BillingService

/-- An HTTP error response: status code and detail string. -/
structure HttpResponse where
  status_code : Nat
  detail : String
deriving DecidableEq, Repr

/-- `GET /orders/{order_id}` (`presentation/billing.py`): `ValueError` from the
service is mapped to 404 Not Found, any other exception to 400. -/
def http_get_order (db : DB) (order_id : Nat) (user_id : Nat) :
    Except HttpResponse Order :=
  match BillingService.get_order db order_id user_id with
  | .ok order => .ok order
  | .error (.valueError m) => .error { status_code := 404, detail := m }
  | .error (.exc m) => .error { status_code := 400, detail := m }

/-- `POST /orders/{order_id}/cancel`: `ValueError` is mapped to 400 Bad
Request, as is any other exception. -/
def http_cancel_order (w : World) (db : DB) (order_id : Nat) (user_id : Nat) :
    DB × Except HttpResponse Order :=
  match BillingService.cancel_order w db order_id user_id with
  | (db, .ok order) => (db, .ok order)
  | (db, .error (.valueError m)) => (db, .error { status_code := 400, detail := m })
  | (db, .error (.exc m)) => (db, .error { status_code := 400, detail := m })

/-- The orchestrator's state-changing operations, for trace-based invariants. -/
inductive Op where
  | createOrder (w : World) (pricing : PackagePricing) (user_id : Nat)
      (package_type : PackageType) (metadata : Option String)
  | cancelOrder (w : World) (order_id : Nat) (user_id : Nat)
  | processWebhook (w : World) (stripe_event : StripeEvent) (raw_payload : String)
deriving Repr

/-- One operation applied to the store (result value discarded, state kept). -/
def Op.step (db : DB) : Op → DB
  | .createOrder w pricing user_id package_type metadata =>
      (BillingService.create_order w db pricing user_id package_type metadata).1
  | .cancelOrder w order_id user_id =>
      (BillingService.cancel_order w db order_id user_id).1
  | .processWebhook w stripe_event raw_payload =>
      (BillingService.process_webhook w db stripe_event raw_payload).1

/-- Run a list of operations. -/
def Op.run (db : DB) (ops : List Op) : DB := ops.foldl Op.step db

/-- All states visited while running `ops` from `db` (including `db` itself). -/
def Op.states (db : DB) : List Op → List DB
  | [] => [db]
  | op :: ops => db :: Op.states (Op.step db op) ops

/-! ### Frame lemmas: which tables each repository operation leaves untouched -/

@[simp]
theorem WebhookEventRepository.orders_create (db : DB) (now : Nat) (sid ty raw : String)
    (oid : Option Nat) :
    (WebhookEventRepository.create db now sid ty raw oid).1.orders = db.orders := rfl

@[simp]
theorem WebhookEventRepository.published_create (db : DB) (now : Nat) (sid ty raw : String)
    (oid : Option Nat) :
    (WebhookEventRepository.create db now sid ty raw oid).1.published = db.published := rfl

@[simp]
theorem WebhookEventRepository.audits_create (db : DB) (now : Nat) (sid ty raw : String)
    (oid : Option Nat) :
    (WebhookEventRepository.create db now sid ty raw oid).1.audits = db.audits := rfl

@[simp]
theorem WebhookEventRepository.orders_mark_processing (db : DB) (now i : Nat) :
    (WebhookEventRepository.mark_processing db now i).orders = db.orders := rfl

@[simp]
theorem WebhookEventRepository.published_mark_processing (db : DB) (now i : Nat) :
    (WebhookEventRepository.mark_processing db now i).published = db.published := rfl

@[simp]
theorem WebhookEventRepository.audits_mark_processing (db : DB) (now i : Nat) :
    (WebhookEventRepository.mark_processing db now i).audits = db.audits := rfl

@[simp]
theorem WebhookEventRepository.orders_mark_processed (db : DB) (now i : Nat)
    (oid : Option Nat) (err : Option String) :
    (WebhookEventRepository.mark_processed db now i oid err).orders = db.orders := rfl

@[simp]
theorem WebhookEventRepository.published_mark_processed (db : DB) (now i : Nat)
    (oid : Option Nat) (err : Option String) :
    (WebhookEventRepository.mark_processed db now i oid err).published = db.published := rfl

@[simp]
theorem WebhookEventRepository.audits_mark_processed (db : DB) (now i : Nat)
    (oid : Option Nat) (err : Option String) :
    (WebhookEventRepository.mark_processed db now i oid err).audits = db.audits := rfl

@[simp]
theorem WebhookEventRepository.orders_increment_retry (db : DB) (i : Nat) :
    (WebhookEventRepository.increment_retry_count db i).orders = db.orders := rfl

@[simp]
theorem WebhookEventRepository.published_increment_retry (db : DB) (i : Nat) :
    (WebhookEventRepository.increment_retry_count db i).published = db.published := rfl

@[simp]
theorem WebhookEventRepository.audits_increment_retry (db : DB) (i : Nat) :
    (WebhookEventRepository.increment_retry_count db i).audits = db.audits := rfl

@[simp]
theorem PaymentAuditRepository.orders_log_action (db : DB) (now oid : Nat) (a : String)
    (ns : OrderStatus) (os : Option OrderStatus) (sid d : Option String) :
    (PaymentAuditRepository.log_action db now oid a ns os sid d).1.orders = db.orders := rfl

@[simp]
theorem PaymentAuditRepository.published_log_action (db : DB) (now oid : Nat) (a : String)
    (ns : OrderStatus) (os : Option OrderStatus) (sid d : Option String) :
    (PaymentAuditRepository.log_action db now oid a ns os sid d).1.published
      = db.published := rfl

@[simp]
theorem PaymentAuditRepository.webhook_events_log_action (db : DB) (now oid : Nat)
    (a : String) (ns : OrderStatus) (os : Option OrderStatus) (sid d : Option String) :
    (PaymentAuditRepository.log_action db now oid a ns os sid d).1.webhook_events
      = db.webhook_events := rfl

@[simp]
theorem OrderRepository.published_update_status (db : DB) (oid : Nat)
    (ns : OrderStatus) (pa : Option Nat) :
    (OrderRepository.update_status db oid ns pa).1.published = db.published := rfl

@[simp]
theorem OrderRepository.webhook_events_update_status (db : DB) (oid : Nat)
    (ns : OrderStatus) (pa : Option Nat) :
    (OrderRepository.update_status db oid ns pa).1.webhook_events
      = db.webhook_events := rfl

@[simp]
theorem OrderRepository.audits_update_status (db : DB) (oid : Nat)
    (ns : OrderStatus) (pa : Option Nat) :
    (OrderRepository.update_status db oid ns pa).1.audits = db.audits := rfl

/-- `get_by_payment_intent_id` only reads the `orders` table. -/
theorem OrderRepository.get_by_payment_intent_id_congr {db db' : DB}
    (h : db'.orders = db.orders) (pid : String) :
    OrderRepository.get_by_payment_intent_id db' pid
      = OrderRepository.get_by_payment_intent_id db pid := by
  unfold OrderRepository.get_by_payment_intent_id
  rw [h]

/-! ### Concrete fixtures used by witnesses and counterexamples -/

/-- A pending-payment order owned by user 7 with payment intent `pi_1`. -/
def samplePendingOrder : Order :=
  { id := 1, user_id := 7, package_type := .basic, amount := 999
    currency := "USD", status := .pending_payment
    stripe_payment_intent_id := some "pi_1", stripe_client_secret := some "cs_1"
    description := none, extra_metadata := none, created_at := 5, paid_at := none }

/-- The same order after it has been paid. -/
def samplePaidOrder : Order :=
  { samplePendingOrder with status := .paid, paid_at := some 9 }

def samplePendingDB : DB := { DB.init with orders := [samplePendingOrder], next_order_id := 2 }

def samplePaidDB : DB := { DB.init with orders := [samplePaidOrder], next_order_id := 2 }

/-- A world where every outbound call succeeds. -/
def sampleWorld : World :=
  { now := 10, create_intent_result := some ("pi_9", "cs_9")
    cancel_intent_ok := true, broker_ok := true }

/-- A world where the broker publish fails. -/
def sampleBrokerDownWorld : World := { sampleWorld with broker_ok := false }

/-- A `payment_intent.succeeded` webhook event for intent `pi_1`. -/
def sampleSucceededEvent : StripeEvent :=
  { id := "evt_1", type := "payment_intent.succeeded", payment_intent_id := "pi_1"
    metadata_order_id := some 1, last_payment_error_message := none }

/-- A `payment_intent.payment_failed` webhook event for intent `pi_1`. -/
def sampleFailedEvent : StripeEvent :=
  { id := "evt_2", type := "payment_intent.payment_failed"
    payment_intent_id := "pi_1", metadata_order_id := some 1
    last_payment_error_message := some "card declined" }

/-- C7: for every order whose current status is `paid`, `failed` or
`cancelled`, `cancel_order` invoked by the owner fails with the
invalid-state-transition `ValueError` and returns the database unchanged —
in particular the order's status is untouched and no gateway cancellation is
attempted (no effect is logged). -/
theorem cancel_order_terminal_rejected (w : World) (db : DB)
    (order_id user_id : Nat) (o : Order)
    (hfind : OrderRepository.get_by_id db order_id = some o)
    (howner : o.user_id = user_id)
    (hterm : o.status = .paid ∨ o.status = .failed ∨ o.status = .cancelled) :
    BillingService.cancel_order w db order_id user_id =
      (db, .error (.valueError
        ("Cannot cancel order with status " ++ o.status.str))) := by
  unfold BillingService.cancel_order
  rw [hfind]
  rcases hterm with h | h | h <;> simp [h, howner]

theorem cancel_order_terminal_rejected_witness :
    BillingService.cancel_order sampleWorld samplePaidDB 1 7 =
      (samplePaidDB, .error (.valueError
        ("Cannot cancel order with status " ++ OrderStatus.paid.str))) :=
  cancel_order_terminal_rejected sampleWorld samplePaidDB 1 7 samplePaidOrder
    (by decide) (by decide) (Or.inl (by decide))

/-- C10: at the HTTP layer an existing order requested by a non-owner yields
404 Not Found from the get-order endpoint — the same classification as a
nonexistent order — while the cancel-order endpoint answers 400 Bad Request
for the identical ownership mismatch. -/
theorem ownership_mismatch_http_classification (w : World) (db : DB)
    (order_id user_id : Nat) (o : Order)
    (hfind : OrderRepository.get_by_id db order_id = some o)
    (hmx : o.user_id ≠ user_id) :
    http_get_order db order_id user_id =
      .error { status_code := 404, detail := "Access denied" } ∧
    (∀ missing_id, OrderRepository.get_by_id db missing_id = none →
      http_get_order db missing_id user_id =
        .error { status_code := 404, detail := "Order not found" }) ∧
    (http_cancel_order w db order_id user_id).2 =
      .error { status_code := 400, detail := "Access denied" } := by
  refine ⟨?_, ?_, ?_⟩
  · unfold http_get_order BillingService.get_order
    rw [hfind]
    simp [hmx]
  · intro missing_id hnone
    unfold http_get_order BillingService.get_order
    rw [hnone]
  · unfold http_cancel_order BillingService.cancel_order
    rw [hfind]
    simp [hmx]

theorem ownership_mismatch_http_classification_witness :
    http_get_order samplePaidDB 1 8 =
      .error { status_code := 404, detail := "Access denied" } ∧
    http_get_order samplePaidDB 3 8 =
      .error { status_code := 404, detail := "Order not found" } ∧
    (http_cancel_order sampleWorld samplePaidDB 1 8).2 =
      .error { status_code := 400, detail := "Access denied" } := by
  have h := ownership_mismatch_http_classification sampleWorld samplePaidDB 1 8
    samplePaidOrder (by decide) (by decide)
  exact ⟨h.1, h.2.1 3 (by decide), h.2.2⟩

/-- C8: when the gateway's payment-intent creation fails, `create_order`
leaves the freshly-persisted order in status `created` (with its
`order_created` audit entry in place, neither rolled back nor deleted),
publishes no `OrderCreated` event, and propagates the gateway error. -/
theorem create_order_gateway_failure_frame (w : World) (db : DB)
    (pricing : PackagePricing) (user_id : Nat) (package_type : PackageType)
    (metadata : Option String)
    (hgw : w.create_intent_result = none) :
    (BillingService.create_order w db pricing user_id package_type metadata).2 =
        .error (.exc "Stripe error") ∧
    (BillingService.create_order w db pricing user_id package_type metadata).1.orders =
      db.orders ++
        [{ id := db.next_order_id, user_id, package_type
           amount := (BillingService.get_package_info pricing package_type).price
           currency := "USD", status := .created
           stripe_payment_intent_id := none, stripe_client_secret := none
           description := some (BillingService.get_package_info pricing package_type).name
           extra_metadata := metadata, created_at := w.now, paid_at := none }] ∧
    (BillingService.create_order w db pricing user_id package_type metadata).1.audits =
      db.audits ++
        [{ order_id := db.next_order_id, action := "order_created"
           old_status := none, new_status := .created, stripe_event_id := none
           details := some ("Package: " ++ package_type.str), created_at := w.now }] ∧
    (BillingService.create_order w db pricing user_id package_type metadata).1.published =
      db.published := by
  cases package_type <;>
    simp [BillingService.create_order, BillingService.get_package_info,
      OrderRepository.create, PaymentAuditRepository.log_action,
      StripeService.create_payment_intent, hgw]

theorem create_order_gateway_failure_frame_witness :
    (BillingService.create_order { sampleWorld with create_intent_result := none }
        DB.init {} 7 .standard none).2 = .error (.exc "Stripe error") ∧
    (BillingService.create_order { sampleWorld with create_intent_result := none }
        DB.init {} 7 .standard none).1.orders =
      [] ++
        [{ id := 0, user_id := 7, package_type := .standard
           amount := (BillingService.get_package_info {} .standard).price
           currency := "USD", status := .created
           stripe_payment_intent_id := none, stripe_client_secret := none
           description := some (BillingService.get_package_info {} .standard).name
           extra_metadata := none, created_at := 10, paid_at := none }] ∧
    (BillingService.create_order { sampleWorld with create_intent_result := none }
        DB.init {} 7 .standard none).1.audits =
      [] ++
        [{ order_id := 0, action := "order_created"
           old_status := none, new_status := .created, stripe_event_id := none
           details := some ("Package: " ++ PackageType.standard.str)
           created_at := 10 }] ∧
    (BillingService.create_order { sampleWorld with create_intent_result := none }
        DB.init {} 7 .standard none).1.published = [] :=
  create_order_gateway_failure_frame { sampleWorld with create_intent_result := none }
    DB.init {} 7 .standard none rfl

/-- `_handle_payment_succeeded` on an order that is already `paid` only marks
the webhook row processed and returns: no status update, no audit entry, no
publish. -/
theorem BillingService.handle_payment_succeeded_already_paid (w : World)
    (db : DB) (ev : StripeEvent) (rowid : Nat) (o : Order)
    (hord : OrderRepository.get_by_payment_intent_id db ev.payment_intent_id
      = some o)
    (hpaid : o.status = .paid) :
    BillingService.handle_payment_succeeded w db ev rowid =
      (WebhookEventRepository.mark_processed db w.now rowid (some o.id) none,
       .ok ()) := by
  unfold BillingService.handle_payment_succeeded
  simp only [hord]
  simp [hpaid]

/-- Dispatch of a `payment_intent.succeeded` event whose order is already
`paid`: the orders, audits and published tables are untouched and the call
succeeds. -/
theorem BillingService.process_webhook_dispatch_already_paid (w : World)
    (db : DB) (ev : StripeEvent) (rowid : Nat) (o : Order)
    (htype : ev.type = "payment_intent.succeeded")
    (hord : OrderRepository.get_by_payment_intent_id db ev.payment_intent_id
      = some o)
    (hpaid : o.status = .paid) :
    (BillingService.process_webhook_dispatch w db ev rowid).1.orders = db.orders ∧
    (BillingService.process_webhook_dispatch w db ev rowid).1.audits = db.audits ∧
    (BillingService.process_webhook_dispatch w db ev rowid).1.published
      = db.published ∧
    (BillingService.process_webhook_dispatch w db ev rowid).2 = .ok () := by
  have hord' : OrderRepository.get_by_payment_intent_id
      (WebhookEventRepository.mark_processing db w.now rowid)
      ev.payment_intent_id = some o := hord
  unfold BillingService.process_webhook_dispatch
  simp only [htype, beq_self_eq_true, if_true,
    BillingService.handle_payment_succeeded_already_paid w _ ev rowid o hord' hpaid]
  simp

/-- C4: `process_webhook` of a fresh `payment_intent.succeeded` event whose
order is already `paid` publishes nothing (in particular no `OrderPaid`),
leaves the orders table — hence the order's `paid_at` — unchanged, writes no
audit entry, and returns success. -/
theorem process_webhook_already_paid_frame (w : World) (db : DB)
    (ev : StripeEvent) (raw : String) (o : Order)
    (htype : ev.type = "payment_intent.succeeded")
    (hfresh : WebhookEventRepository.get_by_stripe_event_id db ev.id = none)
    (hord : OrderRepository.get_by_payment_intent_id db ev.payment_intent_id
      = some o)
    (hpaid : o.status = .paid) :
    (BillingService.process_webhook w db ev raw).1.orders = db.orders ∧
    (BillingService.process_webhook w db ev raw).1.published = db.published ∧
    (BillingService.process_webhook w db ev raw).2 = .ok () := by
  have key := BillingService.process_webhook_dispatch_already_paid w
    (WebhookEventRepository.create db w.now ev.id ev.type raw
      (StripeService.extract_order_id_from_event ev)).1 ev
    (WebhookEventRepository.create db w.now ev.id ev.type raw
      (StripeService.extract_order_id_from_event ev)).2.id o htype hord hpaid
  unfold BillingService.process_webhook
  simp only [hfresh, WebhookEventRepository.create] at key ⊢
  exact ⟨key.1, key.2.2.1, key.2.2.2⟩

theorem process_webhook_already_paid_frame_witness :
    (BillingService.process_webhook sampleWorld samplePaidDB
        sampleSucceededEvent "raw").1.orders = samplePaidDB.orders ∧
    (BillingService.process_webhook sampleWorld samplePaidDB
        sampleSucceededEvent "raw").1.published = samplePaidDB.published ∧
    (BillingService.process_webhook sampleWorld samplePaidDB
        sampleSucceededEvent "raw").2 = .ok () :=
  process_webhook_already_paid_frame sampleWorld samplePaidDB
    sampleSucceededEvent "raw" samplePaidOrder (by decide) (by decide)
    (by decide) (by decide)

/-- `_handle_payment_failed` transitions the resolved order to `failed` with
no terminal-state guard: the orders table becomes the pointwise
`apply_status o.id failed` update, whatever the prior status was. -/
theorem BillingService.handle_payment_failed_orders (w : World) (db : DB)
    (ev : StripeEvent) (rowid : Nat) (o : Order)
    (hord : OrderRepository.get_by_payment_intent_id db ev.payment_intent_id
      = some o) :
    (BillingService.handle_payment_failed w db ev rowid).1.orders
      = db.orders.map (OrderRepository.apply_status o.id .failed none) := by
  unfold BillingService.handle_payment_failed
  simp only [hord, OrderRepository.update_status,
    WebhookEventRepository.orders_mark_processed]
  cases hf : (db.orders.map
      (OrderRepository.apply_status o.id OrderStatus.failed none)).find?
      (fun o1 => o1.id == o.id) with
  | none => simp [hf]
  | some o2 =>
    simp only [hf]
    unfold PaymentAuditRepository.log_action
      OrderEventPublisher.publish_order_failed OrderEventPublisher.publish
    cases hw : w.broker_ok <;> simp

/-- `_handle_payment_canceled` likewise transitions the resolved order to
`cancelled` with no terminal-state guard. -/
theorem BillingService.handle_payment_canceled_orders (w : World) (db : DB)
    (ev : StripeEvent) (rowid : Nat) (o : Order)
    (hord : OrderRepository.get_by_payment_intent_id db ev.payment_intent_id
      = some o) :
    (BillingService.handle_payment_canceled w db ev rowid).1.orders
      = db.orders.map (OrderRepository.apply_status o.id .cancelled none) := by
  unfold BillingService.handle_payment_canceled
  simp only [hord, OrderRepository.update_status,
    WebhookEventRepository.orders_mark_processed]
  cases hf : (db.orders.map
      (OrderRepository.apply_status o.id OrderStatus.cancelled none)).find?
      (fun o1 => o1.id == o.id) with
  | none => simp [hf]
  | some o2 =>
    simp only [hf]
    unfold PaymentAuditRepository.log_action
    simp

/-- Dispatch of a `payment_intent.payment_failed` event: the orders table
becomes the `apply_status o.id failed` update of the resolved order. -/
theorem BillingService.process_webhook_dispatch_orders_failed (w : World)
    (db : DB) (ev : StripeEvent) (rowid : Nat) (o : Order)
    (htype : ev.type = "payment_intent.payment_failed")
    (hord : OrderRepository.get_by_payment_intent_id db ev.payment_intent_id
      = some o) :
    (BillingService.process_webhook_dispatch w db ev rowid).1.orders
      = db.orders.map (OrderRepository.apply_status o.id .failed none) := by
  have hord' : OrderRepository.get_by_payment_intent_id
      (WebhookEventRepository.mark_processing db w.now rowid)
      ev.payment_intent_id = some o := hord
  have horders := BillingService.handle_payment_failed_orders w
    (WebhookEventRepository.mark_processing db w.now rowid) ev rowid o hord'
  simp only [WebhookEventRepository.orders_mark_processing] at horders
  unfold BillingService.process_webhook_dispatch
  simp only [htype]
  cases hr : BillingService.handle_payment_failed w
      (WebhookEventRepository.mark_processing db w.now rowid) ev rowid with
  | mk db1 r =>
    rw [hr] at horders
    simp at horders
    cases r <;> simp [horders]

/-- Dispatch of a `payment_intent.canceled` event: the orders table becomes
the `apply_status o.id cancelled` update of the resolved order. -/
theorem BillingService.process_webhook_dispatch_orders_canceled (w : World)
    (db : DB) (ev : StripeEvent) (rowid : Nat) (o : Order)
    (htype : ev.type = "payment_intent.canceled")
    (hord : OrderRepository.get_by_payment_intent_id db ev.payment_intent_id
      = some o) :
    (BillingService.process_webhook_dispatch w db ev rowid).1.orders
      = db.orders.map (OrderRepository.apply_status o.id .cancelled none) := by
  have hord' : OrderRepository.get_by_payment_intent_id
      (WebhookEventRepository.mark_processing db w.now rowid)
      ev.payment_intent_id = some o := hord
  have horders := BillingService.handle_payment_canceled_orders w
    (WebhookEventRepository.mark_processing db w.now rowid) ev rowid o hord'
  simp only [WebhookEventRepository.orders_mark_processing] at horders
  unfold BillingService.process_webhook_dispatch
  simp only [htype]
  cases hr : BillingService.handle_payment_canceled w
      (WebhookEventRepository.mark_processing db w.now rowid) ev rowid with
  | mk db1 r =>
    rw [hr] at horders
    simp at horders
    cases r <;> simp [horders]

/-- `process_webhook` of a fresh event reduces to the dispatch applied to the
database with the new webhook row added (which leaves `orders` unchanged). -/
theorem BillingService.process_webhook_fresh (w : World) (db : DB)
    (ev : StripeEvent) (raw : String)
    (hfresh : WebhookEventRepository.get_by_stripe_event_id db ev.id = none) :
    BillingService.process_webhook w db ev raw =
      BillingService.process_webhook_dispatch w
        (WebhookEventRepository.create db w.now ev.id ev.type raw
          (StripeService.extract_order_id_from_event ev)).1 ev
        (WebhookEventRepository.create db w.now ev.id ev.type raw
          (StripeService.extract_order_id_from_event ev)).2.id := by
  unfold BillingService.process_webhook
  simp only [hfresh]

/-- After an `apply_status oid st _` bulk update, every row with id `oid` has
status `st`. -/
theorem OrderRepository.apply_status_id_mem (oid : Nat) (st : OrderStatus)
    (pa : Option Nat) (l : List Order) (o' : Order)
    (h : o' ∈ l.map (OrderRepository.apply_status oid st pa))
    (hid : o'.id = oid) : o'.status = st := by
  obtain ⟨x, -, rfl⟩ := List.mem_map.1 h
  unfold OrderRepository.apply_status at hid ⊢
  by_cases hc : (x.id == oid) = true
  · cases hps : pa.isSome <;> simp [hc, hps]
  · exfalso
    simp only [hc, if_neg, Bool.false_eq_true, ite_false] at hid
    exact hc (by simpa using hid)

/-- Counterexample to C2 as stated: `samplePaidOrder` is terminal (`paid`),
yet `process_webhook` of a `payment_intent.payment_failed` event resolving to
it changes its status to `failed`. -/
theorem terminal_status_preserved_refuted :
    samplePaidOrder.status = .paid ∧
    ((BillingService.process_webhook sampleWorld samplePaidDB sampleFailedEvent
        "raw").1.orders.map Order.status) = [.failed] := by decide

/-- C2 amended: `cancel_order` does reject every terminal order, and
`process_webhook` of a payment-succeeded event on an already-`paid` order
leaves the orders table unchanged; but the payment-failed and payment-canceled
handlers apply no terminal-state guard — they transition the resolved order
(whatever its current status, terminal included) to `failed` / `cancelled`. -/
theorem terminal_status_webhook_behavior :
    (∀ (w : World) (db : DB) (order_id user_id : Nat) (o : Order),
      OrderRepository.get_by_id db order_id = some o →
      o.user_id = user_id →
      (o.status = .paid ∨ o.status = .failed ∨ o.status = .cancelled) →
      (BillingService.cancel_order w db order_id user_id).2 =
        .error (.valueError
          ("Cannot cancel order with status " ++ o.status.str))) ∧
    (∀ (w : World) (db : DB) (ev : StripeEvent) (raw : String) (o : Order),
      ev.type = "payment_intent.succeeded" →
      WebhookEventRepository.get_by_stripe_event_id db ev.id = none →
      OrderRepository.get_by_payment_intent_id db ev.payment_intent_id = some o →
      o.status = .paid →
      (BillingService.process_webhook w db ev raw).1.orders = db.orders) ∧
    (∀ (w : World) (db : DB) (ev : StripeEvent) (raw : String) (o : Order),
      ev.type = "payment_intent.payment_failed" →
      WebhookEventRepository.get_by_stripe_event_id db ev.id = none →
      OrderRepository.get_by_payment_intent_id db ev.payment_intent_id = some o →
      (BillingService.process_webhook w db ev raw).1.orders =
        db.orders.map (OrderRepository.apply_status o.id .failed none) ∧
      (∀ o' ∈ (BillingService.process_webhook w db ev raw).1.orders,
        o'.id = o.id → o'.status = .failed)) ∧
    (∀ (w : World) (db : DB) (ev : StripeEvent) (raw : String) (o : Order),
      ev.type = "payment_intent.canceled" →
      WebhookEventRepository.get_by_stripe_event_id db ev.id = none →
      OrderRepository.get_by_payment_intent_id db ev.payment_intent_id = some o →
      (BillingService.process_webhook w db ev raw).1.orders =
        db.orders.map (OrderRepository.apply_status o.id .cancelled none) ∧
      (∀ o' ∈ (BillingService.process_webhook w db ev raw).1.orders,
        o'.id = o.id → o'.status = .cancelled)) := by
  refine ⟨?_, ?_, ?_, ?_⟩
  · intro w db order_id user_id o hfind howner hterm
    unfold BillingService.cancel_order
    simp only [hfind]
    rcases hterm with h | h | h <;> simp [h, howner]
  · intro w db ev raw o htype hfresh hord hpaid
    rw [BillingService.process_webhook_fresh w db ev raw hfresh]
    exact (BillingService.process_webhook_dispatch_already_paid w
      (WebhookEventRepository.create db w.now ev.id ev.type raw
        (StripeService.extract_order_id_from_event ev)).1 ev
      (WebhookEventRepository.create db w.now ev.id ev.type raw
        (StripeService.extract_order_id_from_event ev)).2.id o
      htype hord hpaid).1
  · intro w db ev raw o htype hfresh hord
    have h1 : (BillingService.process_webhook w db ev raw).1.orders =
        db.orders.map (OrderRepository.apply_status o.id .failed none) := by
      rw [BillingService.process_webhook_fresh w db ev raw hfresh]
      exact BillingService.process_webhook_dispatch_orders_failed w _ ev _ o
        htype hord
    refine ⟨h1, ?_⟩
    intro o' hmem hid
    rw [h1] at hmem
    exact OrderRepository.apply_status_id_mem o.id .failed none db.orders o' hmem hid
  · intro w db ev raw o htype hfresh hord
    have h1 : (BillingService.process_webhook w db ev raw).1.orders =
        db.orders.map (OrderRepository.apply_status o.id .cancelled none) := by
      rw [BillingService.process_webhook_fresh w db ev raw hfresh]
      exact BillingService.process_webhook_dispatch_orders_canceled w _ ev _ o
        htype hord
    refine ⟨h1, ?_⟩
    intro o' hmem hid
    rw [h1] at hmem
    exact OrderRepository.apply_status_id_mem o.id .cancelled none db.orders o' hmem hid

theorem terminal_status_webhook_behavior_witness :
    (BillingService.cancel_order sampleWorld samplePaidDB 1 7).2 =
      .error (.valueError
        ("Cannot cancel order with status " ++ OrderStatus.paid.str)) ∧
    (BillingService.process_webhook sampleWorld samplePaidDB
        sampleSucceededEvent "raw").1.orders = samplePaidDB.orders ∧
    (BillingService.process_webhook sampleWorld samplePaidDB
        sampleFailedEvent "raw").1.orders =
      samplePaidDB.orders.map (OrderRepository.apply_status 1 .failed none) :=
  ⟨terminal_status_webhook_behavior.1 sampleWorld samplePaidDB 1 7
      samplePaidOrder (by decide) (by decide) (Or.inl (by decide)),
   terminal_status_webhook_behavior.2.1 sampleWorld samplePaidDB
      sampleSucceededEvent "raw" samplePaidOrder (by decide) (by decide)
      (by decide) (by decide),
   (terminal_status_webhook_behavior.2.2.1 sampleWorld samplePaidDB
      sampleFailedEvent "raw" samplePaidOrder (by decide) (by decide)
      (by decide)).1⟩

/-- `find?` commutes with mapping a function that does not change the
predicate's verdict. -/
theorem find?_map_pred_inv {α : Type} (g : α → α) (p : α → Bool)
    (hp : ∀ a, p (g a) = p a) (l : List α) :
    (l.map g).find? p = (l.find? p).map g := by
  induction l with
  | nil => rfl
  | cons a l ih =>
    simp only [List.map_cons, List.find?_cons]
    rw [hp a]
    cases hpa : p a <;> simp [ih]

/-- `apply_processed` never changes a row's provider event id. -/
theorem WebhookEventRepository.apply_processed_sid (i now : Nat)
    (oid : Option Nat) (err : Option String) (e : WebhookEvent) :
    (WebhookEventRepository.apply_processed i now oid err e).stripe_event_id
      = e.stripe_event_id := by
  unfold WebhookEventRepository.apply_processed
  by_cases hc : (e.id == i) = true <;> cases hs : oid.isSome <;> simp [hc, hs]

/-- `apply_processed` never changes a row's primary key. -/
theorem WebhookEventRepository.apply_processed_id (i now : Nat)
    (oid : Option Nat) (err : Option String) (e : WebhookEvent) :
    (WebhookEventRepository.apply_processed i now oid err e).id = e.id := by
  unfold WebhookEventRepository.apply_processed
  by_cases hc : (e.id == i) = true <;> cases hs : oid.isSome <;> simp [hc, hs]

/-- The webhook row with provider event id `evid` exists and has primary key
`i`. -/
def rowAt (db : DB) (evid : String) (i : Nat) : Prop :=
  ∃ r, WebhookEventRepository.get_by_stripe_event_id db evid = some r ∧ r.id = i

/-- `db'`'s webhook table is a pointwise image of `db`'s under a function
preserving provider event id and primary key. -/
def SidIdMap (db db' : DB) : Prop :=
  ∃ g, db'.webhook_events = db.webhook_events.map g ∧
    (∀ e, (g e).stripe_event_id = e.stripe_event_id) ∧
    (∀ e, (g e).id = e.id)

theorem SidIdMap.of_eq {db db' : DB}
    (h : db'.webhook_events = db.webhook_events) : SidIdMap db db' :=
  ⟨id, by simpa using h, fun _ => rfl, fun _ => rfl⟩

theorem rowAt.of_sidIdMap {db db' : DB} {evid : String} {i : Nat}
    (hmap : SidIdMap db db') (h : rowAt db evid i) : rowAt db' evid i := by
  obtain ⟨g, hg, hsid, hid⟩ := hmap
  obtain ⟨r, hr, hri⟩ := h
  refine ⟨g r, ?_, by rw [hid r, hri]⟩
  unfold WebhookEventRepository.get_by_stripe_event_id at hr ⊢
  rw [hg, find?_map_pred_inv g _ (fun a => by simp [hsid a]), hr]
  rfl

theorem SidIdMap.mark_processing (db : DB) (now i : Nat) :
    SidIdMap db (WebhookEventRepository.mark_processing db now i) := by
  refine ⟨_, rfl, ?_, ?_⟩ <;> intro e <;>
    by_cases hc : (e.id == i) = true <;> simp [hc]

theorem SidIdMap.increment_retry (db : DB) (i : Nat) :
    SidIdMap db (WebhookEventRepository.increment_retry_count db i) := by
  refine ⟨_, rfl, ?_, ?_⟩ <;> intro e <;>
    by_cases hc : (e.id == i) = true <;> simp [hc]

theorem SidIdMap.mark_processed (db : DB) (now i : Nat) (oid : Option Nat)
    (err : Option String) :
    SidIdMap db (WebhookEventRepository.mark_processed db now i oid err) :=
  ⟨_, rfl, WebhookEventRepository.apply_processed_sid i now oid err,
    WebhookEventRepository.apply_processed_id i now oid err⟩

/-- After `mark_processed` on the row with key `i`, the row found by provider
event id carries `processed = err.isNone` and the given error message. -/
theorem rowAt.mark_processed_fields {db : DB} {evid : String} {i : Nat}
    (now : Nat) (oid : Option Nat) (err : Option String)
    (h : rowAt db evid i) :
    ∃ r', WebhookEventRepository.get_by_stripe_event_id
        (WebhookEventRepository.mark_processed db now i oid err) evid = some r' ∧
      r'.processed = err.isNone ∧ r'.error_message = err := by
  obtain ⟨r, hr, hri⟩ := h
  refine ⟨WebhookEventRepository.apply_processed i now oid err r, ?_, ?_, ?_⟩
  · unfold WebhookEventRepository.get_by_stripe_event_id at hr ⊢
    unfold WebhookEventRepository.mark_processed
    rw [show ({ db with
          webhook_events := db.webhook_events.map
            (WebhookEventRepository.apply_processed i now oid err)
          log := db.log ++ [.webhookMarkProcessed i err.isNone] } : DB).webhook_events
        = db.webhook_events.map
            (WebhookEventRepository.apply_processed i now oid err) from rfl]
    rw [find?_map_pred_inv _ _
      (fun a => by rw [WebhookEventRepository.apply_processed_sid]) _]
    rw [hr]
    rfl
  · unfold WebhookEventRepository.apply_processed
    cases hs : oid.isSome <;> simp [hri, hs]
  · unfold WebhookEventRepository.apply_processed
    cases hs : oid.isSome <;> simp [hri, hs]

/-- `_handle_payment_succeeded` rewrites the webhook table only through
`mark_processed`, which preserves row keys and provider event ids. -/
theorem SidIdMap.handle_payment_succeeded (w : World) (db : DB)
    (ev : StripeEvent) (rid : Nat) :
    SidIdMap db (BillingService.handle_payment_succeeded w db ev rid).1 := by
  unfold BillingService.handle_payment_succeeded
  cases horder : OrderRepository.get_by_payment_intent_id db
      ev.payment_intent_id with
  | none =>
    simp only [horder]
    exact SidIdMap.of_eq rfl
  | some o =>
    simp only [horder]
    by_cases hp : (o.status == OrderStatus.paid) = true
    · simp only [hp, if_true]
      exact SidIdMap.mark_processed db w.now rid (some o.id) none
    · simp only [hp, Bool.false_eq_true, if_false]
      cases hf : ((WebhookEventRepository.mark_processed db w.now rid
          (some o.id) none).orders.map
            (OrderRepository.apply_status o.id OrderStatus.paid
              (some w.now))).find? (fun o1 => o1.id == o.id) with
      | none =>
        simp only [OrderRepository.update_status, hf]
        exact SidIdMap.mark_processed db w.now rid (some o.id) none
      | some o2 =>
        simp only [OrderRepository.update_status, hf,
          PaymentAuditRepository.log_action,
          OrderEventPublisher.publish_order_paid, OrderEventPublisher.publish]
        cases hb : w.broker_ok <;> simp only [hb, Bool.false_eq_true, if_false,
          if_true] <;>
          exact SidIdMap.mark_processed db w.now rid (some o.id) none

/-- `_handle_payment_failed` rewrites the webhook table only through
`mark_processed`. -/
theorem SidIdMap.handle_payment_failed (w : World) (db : DB)
    (ev : StripeEvent) (rid : Nat) :
    SidIdMap db (BillingService.handle_payment_failed w db ev rid).1 := by
  unfold BillingService.handle_payment_failed
  cases horder : OrderRepository.get_by_payment_intent_id db
      ev.payment_intent_id with
  | none =>
    simp only [horder]
    exact SidIdMap.of_eq rfl
  | some o =>
    simp only [horder]
    cases hf : ((WebhookEventRepository.mark_processed db w.now rid
        (some o.id) none).orders.map
          (OrderRepository.apply_status o.id OrderStatus.failed
            none)).find? (fun o1 => o1.id == o.id) with
    | none =>
      simp only [OrderRepository.update_status, hf]
      exact SidIdMap.mark_processed db w.now rid (some o.id) none
    | some o2 =>
      simp only [OrderRepository.update_status, hf,
        PaymentAuditRepository.log_action,
        OrderEventPublisher.publish_order_failed, OrderEventPublisher.publish]
      cases hb : w.broker_ok <;> simp only [hb, Bool.false_eq_true, if_false,
        if_true] <;>
        exact SidIdMap.mark_processed db w.now rid (some o.id) none

/-- `_handle_payment_canceled` rewrites the webhook table only through
`mark_processed`. -/
theorem SidIdMap.handle_payment_canceled (w : World) (db : DB)
    (ev : StripeEvent) (rid : Nat) :
    SidIdMap db (BillingService.handle_payment_canceled w db ev rid).1 := by
  unfold BillingService.handle_payment_canceled
  cases horder : OrderRepository.get_by_payment_intent_id db
      ev.payment_intent_id with
  | none =>
    simp only [horder]
    exact SidIdMap.of_eq rfl
  | some o =>
    simp only [horder]
    cases hf : ((WebhookEventRepository.mark_processed db w.now rid
        (some o.id) none).orders.map
          (OrderRepository.apply_status o.id OrderStatus.cancelled
            none)).find? (fun o1 => o1.id == o.id) with
    | none =>
      simp only [OrderRepository.update_status, hf]
      exact SidIdMap.mark_processed db w.now rid (some o.id) none
    | some o2 =>
      simp only [OrderRepository.update_status, hf,
        PaymentAuditRepository.log_action]
      exact SidIdMap.mark_processed db w.now rid (some o.id) none

/-- When the dispatch step fails, `process_webhook_dispatch` marks the webhook
row with `processed = false` and the error message, and re-raises. -/
theorem BillingService.process_webhook_dispatch_error_row (w : World) (db : DB)
    (ev : StripeEvent) (rid : Nat) (db' : DB) (e : PyErr)
    (h : BillingService.process_webhook_dispatch w db ev rid = (db', .error e))
    (hrow : rowAt db ev.id rid) :
    ∃ r', WebhookEventRepository.get_by_stripe_event_id db' ev.id = some r' ∧
      r'.processed = false ∧
      r'.error_message = some ("Error processing webhook: " ++ e.msg) := by
  have hrow2 : rowAt (WebhookEventRepository.mark_processing db w.now rid)
      ev.id rid :=
    rowAt.of_sidIdMap (SidIdMap.mark_processing db w.now rid) hrow
  unfold BillingService.process_webhook_dispatch at h
  by_cases h1 : (ev.type == "payment_intent.succeeded") = true
  · simp only [h1, if_true] at h
    cases hr : BillingService.handle_payment_succeeded w
        (WebhookEventRepository.mark_processing db w.now rid) ev rid with
    | mk db3 r3 =>
      rw [hr] at h
      cases r3 with
      | ok _ => simp at h
      | error e3 =>
        simp only [Prod.mk.injEq] at h
        obtain ⟨hdb, he⟩ := h
        obtain rfl : e3 = e := by injection he
        subst hdb
        have hmap : SidIdMap
            (WebhookEventRepository.mark_processing db w.now rid) db3 := by
          have hx := SidIdMap.handle_payment_succeeded w
            (WebhookEventRepository.mark_processing db w.now rid) ev rid
          rw [hr] at hx
          exact hx
        exact rowAt.mark_processed_fields w.now none _
          (rowAt.of_sidIdMap hmap hrow2)
  · simp only [h1, Bool.false_eq_true, if_false] at h
    by_cases h2 : (ev.type == "payment_intent.payment_failed") = true
    · simp only [h2, if_true] at h
      cases hr : BillingService.handle_payment_failed w
          (WebhookEventRepository.mark_processing db w.now rid) ev rid with
      | mk db3 r3 =>
        rw [hr] at h
        cases r3 with
        | ok _ => simp at h
        | error e3 =>
          simp only [Prod.mk.injEq] at h
          obtain ⟨hdb, he⟩ := h
          obtain rfl : e3 = e := by injection he
          subst hdb
          have hmap : SidIdMap
              (WebhookEventRepository.mark_processing db w.now rid) db3 := by
            have hx := SidIdMap.handle_payment_failed w
              (WebhookEventRepository.mark_processing db w.now rid) ev rid
            rw [hr] at hx
            exact hx
          exact rowAt.mark_processed_fields w.now none _
            (rowAt.of_sidIdMap hmap hrow2)
    · simp only [h2, Bool.false_eq_true, if_false] at h
      by_cases h3 : (ev.type == "payment_intent.canceled") = true
      · simp only [h3, if_true] at h
        cases hr : BillingService.handle_payment_canceled w
            (WebhookEventRepository.mark_processing db w.now rid) ev rid with
        | mk db3 r3 =>
          rw [hr] at h
          cases r3 with
          | ok _ => simp at h
          | error e3 =>
            simp only [Prod.mk.injEq] at h
            obtain ⟨hdb, he⟩ := h
            obtain rfl : e3 = e := by injection he
            subst hdb
            have hmap : SidIdMap
                (WebhookEventRepository.mark_processing db w.now rid) db3 := by
              have hx := SidIdMap.handle_payment_canceled w
                (WebhookEventRepository.mark_processing db w.now rid) ev rid
              rw [hr] at hx
              exact hx
            exact rowAt.mark_processed_fields w.now none _
              (rowAt.of_sidIdMap hmap hrow2)
      · simp only [h3, Bool.false_eq_true, if_false] at h
        simp at h

instance : DecidableEq (Except PyErr Unit) := fun a b =>
  match a, b with
  | .ok (), .ok () => isTrue rfl
  | .ok (), .error _ => isFalse (fun hx => Except.noConfusion hx)
  | .error _, .ok () => isFalse (fun hx => Except.noConfusion hx)
  | .error e1, .error e2 =>
    match decEq e1 e2 with
    | isTrue h => isTrue (by rw [h])
    | isFalse h => isFalse (fun hx => h (by injection hx))

/-- Counterexample to C1 as stated: with the broker down, dispatch of a fresh
`payment_intent.succeeded` event fails after the store/audit writes; the claim
says the row is then marked `processed = true`, but the code computes
`processed = (error_message is None)` and therefore stores `processed = false`
(the error message is recorded and the failure re-raised). -/
theorem webhook_failure_marked_processed_refuted :
    (BillingService.process_webhook sampleBrokerDownWorld samplePendingDB
        sampleSucceededEvent "raw").2 = .error (.exc "publish failed") ∧
    ((BillingService.process_webhook sampleBrokerDownWorld samplePendingDB
        sampleSucceededEvent "raw").1.webhook_events.map
      (fun e => (e.processed, e.error_message))) =
      [(false, some "Error processing webhook: publish failed")] := by decide

/-- C1 amended: when dispatch raises, `process_webhook` records the error
message on the WebhookEvent row and re-raises, but it marks the row
`processed = false` (not `true`): `mark_processed` stores
`processed = (error_message is None)`. -/
theorem process_webhook_failure_marks_unprocessed (w : World) (db : DB)
    (ev : StripeEvent) (raw : String) (db' : DB) (e : PyErr)
    (h : BillingService.process_webhook w db ev raw = (db', .error e)) :
    ∃ r', WebhookEventRepository.get_by_stripe_event_id db' ev.id = some r' ∧
      r'.processed = false ∧
      r'.error_message = some ("Error processing webhook: " ++ e.msg) := by
  cases hlook : WebhookEventRepository.get_by_stripe_event_id db ev.id with
  | some row =>
    unfold BillingService.process_webhook at h
    simp only [hlook] at h
    by_cases hp : row.processed = true
    · rw [if_pos hp] at h
      simp [Prod.ext_iff] at h
    · rw [if_neg hp] at h
      exact BillingService.process_webhook_dispatch_error_row w _ ev row.id db' e h
        (rowAt.of_sidIdMap (SidIdMap.increment_retry db row.id) ⟨row, hlook, rfl⟩)
  | none =>
    rw [BillingService.process_webhook_fresh w db ev raw hlook] at h
    refine BillingService.process_webhook_dispatch_error_row w _ ev _ db' e h ?_
    refine ⟨(WebhookEventRepository.create db w.now ev.id ev.type raw
      (StripeService.extract_order_id_from_event ev)).2, ?_, rfl⟩
    unfold WebhookEventRepository.get_by_stripe_event_id at hlook ⊢
    rw [show (WebhookEventRepository.create db w.now ev.id ev.type raw
        (StripeService.extract_order_id_from_event ev)).1.webhook_events
      = db.webhook_events ++
          [(WebhookEventRepository.create db w.now ev.id ev.type raw
            (StripeService.extract_order_id_from_event ev)).2] from rfl]
    rw [List.find?_append, hlook]
    simp [WebhookEventRepository.create]

theorem process_webhook_failure_marks_unprocessed_witness :
    ∃ r', WebhookEventRepository.get_by_stripe_event_id
        (BillingService.process_webhook sampleBrokerDownWorld samplePendingDB
          sampleSucceededEvent "raw").1 sampleSucceededEvent.id = some r' ∧
      r'.processed = false ∧
      r'.error_message =
        some ("Error processing webhook: " ++ (PyErr.exc "publish failed").msg) :=
  process_webhook_failure_marks_unprocessed sampleBrokerDownWorld samplePendingDB
    sampleSucceededEvent "raw"
    (BillingService.process_webhook sampleBrokerDownWorld samplePendingDB
      sampleSucceededEvent "raw").1
    (.exc "publish failed") (by decide)

/-- When dispatch completes, `process_webhook_dispatch` marks the webhook row
`processed = true` with no error message. -/
theorem BillingService.process_webhook_dispatch_ok_row (w : World) (db : DB)
    (ev : StripeEvent) (rid : Nat) (db' : DB)
    (h : BillingService.process_webhook_dispatch w db ev rid = (db', .ok ()))
    (hrow : rowAt db ev.id rid) :
    ∃ r', WebhookEventRepository.get_by_stripe_event_id db' ev.id = some r' ∧
      r'.processed = true ∧ r'.error_message = none := by
  have hrow2 : rowAt (WebhookEventRepository.mark_processing db w.now rid)
      ev.id rid :=
    rowAt.of_sidIdMap (SidIdMap.mark_processing db w.now rid) hrow
  unfold BillingService.process_webhook_dispatch at h
  by_cases h1 : (ev.type == "payment_intent.succeeded") = true
  · simp only [h1, if_true] at h
    cases hr : BillingService.handle_payment_succeeded w
        (WebhookEventRepository.mark_processing db w.now rid) ev rid with
    | mk db3 r3 =>
      rw [hr] at h
      cases r3 with
      | error e3 => simp [Prod.ext_iff] at h
      | ok _ =>
        simp only [Prod.mk.injEq] at h
        obtain ⟨hdb, -⟩ := h
        subst hdb
        have hmap : SidIdMap
            (WebhookEventRepository.mark_processing db w.now rid) db3 := by
          have hx := SidIdMap.handle_payment_succeeded w
            (WebhookEventRepository.mark_processing db w.now rid) ev rid
          rw [hr] at hx
          exact hx
        exact rowAt.mark_processed_fields w.now none none
          (rowAt.of_sidIdMap hmap hrow2)
  · simp only [h1, Bool.false_eq_true, if_false] at h
    by_cases h2 : (ev.type == "payment_intent.payment_failed") = true
    · simp only [h2, if_true] at h
      cases hr : BillingService.handle_payment_failed w
          (WebhookEventRepository.mark_processing db w.now rid) ev rid with
      | mk db3 r3 =>
        rw [hr] at h
        cases r3 with
        | error e3 => simp [Prod.ext_iff] at h
        | ok _ =>
          simp only [Prod.mk.injEq] at h
          obtain ⟨hdb, -⟩ := h
          subst hdb
          have hmap : SidIdMap
              (WebhookEventRepository.mark_processing db w.now rid) db3 := by
            have hx := SidIdMap.handle_payment_failed w
              (WebhookEventRepository.mark_processing db w.now rid) ev rid
            rw [hr] at hx
            exact hx
          exact rowAt.mark_processed_fields w.now none none
            (rowAt.of_sidIdMap hmap hrow2)
    · simp only [h2, Bool.false_eq_true, if_false] at h
      by_cases h3 : (ev.type == "payment_intent.canceled") = true
      · simp only [h3, if_true] at h
        cases hr : BillingService.handle_payment_canceled w
            (WebhookEventRepository.mark_processing db w.now rid) ev rid with
        | mk db3 r3 =>
          rw [hr] at h
          cases r3 with
          | error e3 => simp [Prod.ext_iff] at h
          | ok _ =>
            simp only [Prod.mk.injEq] at h
            obtain ⟨hdb, -⟩ := h
            subst hdb
            have hmap : SidIdMap
                (WebhookEventRepository.mark_processing db w.now rid) db3 := by
              have hx := SidIdMap.handle_payment_canceled w
                (WebhookEventRepository.mark_processing db w.now rid) ev rid
              rw [hr] at hx
              exact hx
            exact rowAt.mark_processed_fields w.now none none
              (rowAt.of_sidIdMap hmap hrow2)
      · simp only [h3, Bool.false_eq_true, if_false] at h
        simp only [Prod.mk.injEq] at h
        obtain ⟨hdb, -⟩ := h
        subst hdb
        exact rowAt.mark_processed_fields w.now none none hrow2

/-- The newly-created webhook row is found under its provider event id when
that id was fresh. -/
theorem rowAt_create (w : World) (db : DB) (ev : StripeEvent) (raw : String)
    (hlook : WebhookEventRepository.get_by_stripe_event_id db ev.id = none) :
    rowAt (WebhookEventRepository.create db w.now ev.id ev.type raw
        (StripeService.extract_order_id_from_event ev)).1 ev.id
      (WebhookEventRepository.create db w.now ev.id ev.type raw
        (StripeService.extract_order_id_from_event ev)).2.id := by
  refine ⟨(WebhookEventRepository.create db w.now ev.id ev.type raw
    (StripeService.extract_order_id_from_event ev)).2, ?_, rfl⟩
  unfold WebhookEventRepository.get_by_stripe_event_id at hlook ⊢
  rw [show (WebhookEventRepository.create db w.now ev.id ev.type raw
      (StripeService.extract_order_id_from_event ev)).1.webhook_events
    = db.webhook_events ++
        [(WebhookEventRepository.create db w.now ev.id ev.type raw
          (StripeService.extract_order_id_from_event ev)).2] from rfl]
  rw [List.find?_append, hlook]
  simp [WebhookEventRepository.create]

/-- A successful `process_webhook` call always leaves the row for the
provider event id marked `processed = true`. -/
theorem BillingService.process_webhook_ok_row (w : World) (db : DB)
    (ev : StripeEvent) (raw : String) (db' : DB)
    (h : BillingService.process_webhook w db ev raw = (db', .ok ())) :
    ∃ r', WebhookEventRepository.get_by_stripe_event_id db' ev.id = some r' ∧
      r'.processed = true := by
  cases hlook : WebhookEventRepository.get_by_stripe_event_id db ev.id with
  | some row =>
    unfold BillingService.process_webhook at h
    simp only [hlook] at h
    by_cases hp : row.processed = true
    · rw [if_pos hp] at h
      simp only [Prod.mk.injEq] at h
      obtain ⟨hdb, -⟩ := h
      subst hdb
      exact ⟨row, hlook, hp⟩
    · rw [if_neg hp] at h
      obtain ⟨r', hr1, hr2, -⟩ :=
        BillingService.process_webhook_dispatch_ok_row w _ ev row.id db' h
          (rowAt.of_sidIdMap (SidIdMap.increment_retry db row.id)
            ⟨row, hlook, rfl⟩)
      exact ⟨r', hr1, hr2⟩
  | none =>
    rw [BillingService.process_webhook_fresh w db ev raw hlook] at h
    obtain ⟨r', hr1, hr2, -⟩ :=
      BillingService.process_webhook_dispatch_ok_row w _ ev _ db' h
        (rowAt_create w db ev raw hlook)
    exact ⟨r', hr1, hr2⟩

/-- `_handle_payment_succeeded` on a not-yet-paid order appends exactly the
`payment_succeeded` audit entry correlated to the provider event id. -/
theorem BillingService.handle_payment_succeeded_audits (w : World) (db : DB)
    (ev : StripeEvent) (rid : Nat) (o : Order)
    (hord : OrderRepository.get_by_payment_intent_id db ev.payment_intent_id
      = some o)
    (hnp : (o.status == OrderStatus.paid) = false) :
    (BillingService.handle_payment_succeeded w db ev rid).1.audits =
      db.audits ++
        [{ order_id := o.id, action := "payment_succeeded"
           old_status := some o.status, new_status := .paid
           stripe_event_id := some ev.id
           details := some ("Payment Intent: " ++ ev.payment_intent_id)
           created_at := w.now }] := by
  have hmem : o ∈ db.orders := List.mem_of_find?_eq_some hord
  have hpm : OrderRepository.apply_status o.id .paid (some w.now) o ∈
      db.orders.map (OrderRepository.apply_status o.id .paid (some w.now)) :=
    List.mem_map_of_mem _ hmem
  have hpx : ((OrderRepository.apply_status o.id .paid (some w.now) o).id
      == o.id) = true := by
    simp [OrderRepository.apply_status]
  have hsome : ((db.orders.map
      (OrderRepository.apply_status o.id .paid (some w.now))).find?
        (fun o1 => o1.id == o.id)).isSome :=
    List.find?_isSome.2 ⟨_, hpm, hpx⟩
  obtain ⟨x, hx⟩ := Option.isSome_iff_exists.1 hsome
  have hxid : x.id = o.id := by
    have := List.find?_some hx
    simpa using this
  unfold BillingService.handle_payment_succeeded
  simp only [hord, hnp, Bool.false_eq_true, if_false,
    OrderRepository.update_status, WebhookEventRepository.orders_mark_processed,
    hx]
  unfold PaymentAuditRepository.log_action
    OrderEventPublisher.publish_order_paid OrderEventPublisher.publish
  cases hb : w.broker_ok <;> simp [hxid]

/-- Dispatch of a fresh succeeded event on a not-yet-paid order appends the
single `payment_succeeded` audit entry. -/
theorem BillingService.process_webhook_dispatch_succeeded_audits (w : World)
    (db : DB) (ev : StripeEvent) (rid : Nat) (o : Order)
    (htype : ev.type = "payment_intent.succeeded")
    (hord : OrderRepository.get_by_payment_intent_id db ev.payment_intent_id
      = some o)
    (hnp : (o.status == OrderStatus.paid) = false) :
    (BillingService.process_webhook_dispatch w db ev rid).1.audits =
      db.audits ++
        [{ order_id := o.id, action := "payment_succeeded"
           old_status := some o.status, new_status := .paid
           stripe_event_id := some ev.id
           details := some ("Payment Intent: " ++ ev.payment_intent_id)
           created_at := w.now }] := by
  have hord' : OrderRepository.get_by_payment_intent_id
      (WebhookEventRepository.mark_processing db w.now rid)
      ev.payment_intent_id = some o := hord
  have h' := BillingService.handle_payment_succeeded_audits w
    (WebhookEventRepository.mark_processing db w.now rid) ev rid o hord' hnp
  simp only [WebhookEventRepository.audits_mark_processing] at h'
  unfold BillingService.process_webhook_dispatch
  simp only [htype]
  cases hr : BillingService.handle_payment_succeeded w
      (WebhookEventRepository.mark_processing db w.now rid) ev rid with
  | mk db3 r3 =>
    rw [hr] at h'
    simp at h'
    cases r3 <;> simp [h']

/-- `process_webhook` of a fresh succeeded event on a not-yet-paid order
appends exactly one `payment_succeeded` audit entry. -/
theorem BillingService.process_webhook_succeeded_audits (w : World) (db : DB)
    (ev : StripeEvent) (raw : String) (o : Order)
    (htype : ev.type = "payment_intent.succeeded")
    (hfresh : WebhookEventRepository.get_by_stripe_event_id db ev.id = none)
    (hord : OrderRepository.get_by_payment_intent_id db ev.payment_intent_id
      = some o)
    (hnp : (o.status == OrderStatus.paid) = false) :
    (BillingService.process_webhook w db ev raw).1.audits =
      db.audits ++
        [{ order_id := o.id, action := "payment_succeeded"
           old_status := some o.status, new_status := .paid
           stripe_event_id := some ev.id
           details := some ("Payment Intent: " ++ ev.payment_intent_id)
           created_at := w.now }] := by
  rw [BillingService.process_webhook_fresh w db ev raw hfresh]
  exact BillingService.process_webhook_dispatch_succeeded_audits w
    (WebhookEventRepository.create db w.now ev.id ev.type raw
      (StripeService.extract_order_id_from_event ev)).1 ev
    (WebhookEventRepository.create db w.now ev.id ev.type raw
      (StripeService.extract_order_id_from_event ev)).2.id o htype hord hnp

/-- C3: after a first `process_webhook` call for a provider event id completed
successfully, a second call with the same event id and payload is a no-op that
returns success — the database (so in particular every order status and the
audit table) is unchanged; and for a fresh succeeded event applied to a
not-yet-paid order the first call leaves exactly one audit entry correlated to
the provider event id, which the second call therefore preserves. -/
theorem process_webhook_second_call_noop :
    (∀ (w1 w2 : World) (db db1 : DB) (ev : StripeEvent) (raw : String),
      BillingService.process_webhook w1 db ev raw = (db1, .ok ()) →
      BillingService.process_webhook w2 db1 ev raw = (db1, .ok ())) ∧
    (∀ (w1 : World) (db : DB) (ev : StripeEvent) (raw : String) (o : Order),
      ev.type = "payment_intent.succeeded" →
      WebhookEventRepository.get_by_stripe_event_id db ev.id = none →
      OrderRepository.get_by_payment_intent_id db ev.payment_intent_id = some o →
      (o.status == OrderStatus.paid) = false →
      (db.audits.filter (fun a => a.stripe_event_id == some ev.id)).length = 0 →
      ((BillingService.process_webhook w1 db ev raw).1.audits.filter
        (fun a => a.stripe_event_id == some ev.id)).length = 1) := by
  constructor
  · intro w1 w2 db db1 ev raw h
    obtain ⟨r', hfind, hproc⟩ :=
      BillingService.process_webhook_ok_row w1 db ev raw db1 h
    unfold BillingService.process_webhook
    simp only [hfind]
    rw [if_pos hproc]
  · intro w1 db ev raw o htype hfresh hord hnp hcount
    rw [BillingService.process_webhook_succeeded_audits w1 db ev raw o htype
      hfresh hord hnp]
    have hempty : db.audits.filter (fun a => a.stripe_event_id == some ev.id)
        = [] := List.length_eq_zero.1 hcount
    rw [List.filter_append, hempty]
    simp

theorem process_webhook_second_call_noop_witness :
    BillingService.process_webhook { sampleWorld with now := 11 }
        (BillingService.process_webhook sampleWorld samplePendingDB
          sampleSucceededEvent "raw").1 sampleSucceededEvent "raw" =
      ((BillingService.process_webhook sampleWorld samplePendingDB
        sampleSucceededEvent "raw").1, .ok ()) ∧
    ((BillingService.process_webhook sampleWorld samplePendingDB
        sampleSucceededEvent "raw").1.audits.filter
      (fun a => a.stripe_event_id == some sampleSucceededEvent.id)).length = 1 :=
  ⟨process_webhook_second_call_noop.1 sampleWorld { sampleWorld with now := 11 }
      samplePendingDB
      (BillingService.process_webhook sampleWorld samplePendingDB
        sampleSucceededEvent "raw").1 sampleSucceededEvent "raw" (by decide),
   process_webhook_second_call_noop.2 sampleWorld samplePendingDB
      sampleSucceededEvent "raw" samplePendingOrder (by decide) (by decide)
      (by decide) (by decide) (by decide)⟩

/-- `_handle_payment_succeeded` on a not-yet-paid order updates the orders
table to the `apply_status o.id paid (some now)` image. -/
theorem BillingService.handle_payment_succeeded_orders (w : World) (db : DB)
    (ev : StripeEvent) (rid : Nat) (o : Order)
    (hord : OrderRepository.get_by_payment_intent_id db ev.payment_intent_id
      = some o)
    (hnp : (o.status == OrderStatus.paid) = false) :
    (BillingService.handle_payment_succeeded w db ev rid).1.orders
      = db.orders.map (OrderRepository.apply_status o.id .paid (some w.now)) := by
  unfold BillingService.handle_payment_succeeded
  simp only [hord, hnp, Bool.false_eq_true, if_false,
    OrderRepository.update_status, WebhookEventRepository.orders_mark_processed]
  cases hf : (db.orders.map
      (OrderRepository.apply_status o.id OrderStatus.paid (some w.now))).find?
      (fun o1 => o1.id == o.id) with
  | none => simp [hf]
  | some o2 =>
    simp only [hf]
    unfold PaymentAuditRepository.log_action
      OrderEventPublisher.publish_order_paid OrderEventPublisher.publish
    cases hw : w.broker_ok <;> simp

/-- The effect log of `_handle_payment_succeeded` on a not-yet-paid order:
webhook mark, then the status-store mutation, then the audit write, then —
exactly when the broker is up — the publish. -/
theorem BillingService.handle_payment_succeeded_log (w : World) (db : DB)
    (ev : StripeEvent) (rid : Nat) (o : Order)
    (hord : OrderRepository.get_by_payment_intent_id db ev.payment_intent_id
      = some o)
    (hnp : (o.status == OrderStatus.paid) = false) :
    ∃ pe, (BillingService.handle_payment_succeeded w db ev rid).1.log =
      db.log ++ [.webhookMarkProcessed rid true,
        .storeUpdateStatus o.id .paid, .auditWrite o.id "payment_succeeded"] ++
      (if w.broker_ok then [Effect.publish pe] else []) := by
  have hmem : o ∈ db.orders := List.mem_of_find?_eq_some hord
  have hpm : OrderRepository.apply_status o.id .paid (some w.now) o ∈
      db.orders.map (OrderRepository.apply_status o.id .paid (some w.now)) :=
    List.mem_map_of_mem _ hmem
  have hpx : ((OrderRepository.apply_status o.id .paid (some w.now) o).id
      == o.id) = true := by
    simp [OrderRepository.apply_status]
  have hsome : ((db.orders.map
      (OrderRepository.apply_status o.id .paid (some w.now))).find?
        (fun o1 => o1.id == o.id)).isSome :=
    List.find?_isSome.2 ⟨_, hpm, hpx⟩
  obtain ⟨x, hx⟩ := Option.isSome_iff_exists.1 hsome
  have hxid : x.id = o.id := by
    have := List.find?_some hx
    simpa using this
  refine ⟨DomainEvent.orderPaid x.id x.user_id x.package_type x.amount
    x.currency w.now ev.payment_intent_id, ?_⟩
  unfold BillingService.handle_payment_succeeded
  simp only [hord, hnp, Bool.false_eq_true, if_false,
    OrderRepository.update_status, WebhookEventRepository.orders_mark_processed,
    hx]
  unfold PaymentAuditRepository.log_action
    OrderEventPublisher.publish_order_paid OrderEventPublisher.publish
  cases hb : w.broker_ok <;>
    simp [hxid, WebhookEventRepository.mark_processed, List.append_assoc]

/-- With the broker down, `_handle_payment_succeeded` on a not-yet-paid order
raises the publish failure. -/
theorem BillingService.handle_payment_succeeded_error_of_broker_down
    (w : World) (db : DB) (ev : StripeEvent) (rid : Nat) (o : Order)
    (hord : OrderRepository.get_by_payment_intent_id db ev.payment_intent_id
      = some o)
    (hnp : (o.status == OrderStatus.paid) = false)
    (hb : w.broker_ok = false) :
    (BillingService.handle_payment_succeeded w db ev rid).2
      = .error (.exc "publish failed") := by
  have hmem : o ∈ db.orders := List.mem_of_find?_eq_some hord
  have hpm : OrderRepository.apply_status o.id .paid (some w.now) o ∈
      db.orders.map (OrderRepository.apply_status o.id .paid (some w.now)) :=
    List.mem_map_of_mem _ hmem
  have hpx : ((OrderRepository.apply_status o.id .paid (some w.now) o).id
      == o.id) = true := by
    simp [OrderRepository.apply_status]
  have hsome : ((db.orders.map
      (OrderRepository.apply_status o.id .paid (some w.now))).find?
        (fun o1 => o1.id == o.id)).isSome :=
    List.find?_isSome.2 ⟨_, hpm, hpx⟩
  obtain ⟨x, hx⟩ := Option.isSome_iff_exists.1 hsome
  unfold BillingService.handle_payment_succeeded
  simp only [hord, hnp, Bool.false_eq_true, if_false,
    OrderRepository.update_status, WebhookEventRepository.orders_mark_processed,
    hx]
  unfold PaymentAuditRepository.log_action
    OrderEventPublisher.publish_order_paid OrderEventPublisher.publish
  simp [hb]

/-- With the broker up, `_handle_payment_succeeded` on a not-yet-paid order
returns success. -/
theorem BillingService.handle_payment_succeeded_ok_of_broker_up (w : World)
    (db : DB) (ev : StripeEvent) (rid : Nat) (o : Order)
    (hord : OrderRepository.get_by_payment_intent_id db ev.payment_intent_id
      = some o)
    (hnp : (o.status == OrderStatus.paid) = false)
    (hb : w.broker_ok = true) :
    (BillingService.handle_payment_succeeded w db ev rid).2 = .ok () := by
  have hmem : o ∈ db.orders := List.mem_of_find?_eq_some hord
  have hpm : OrderRepository.apply_status o.id .paid (some w.now) o ∈
      db.orders.map (OrderRepository.apply_status o.id .paid (some w.now)) :=
    List.mem_map_of_mem _ hmem
  have hpx : ((OrderRepository.apply_status o.id .paid (some w.now) o).id
      == o.id) = true := by
    simp [OrderRepository.apply_status]
  have hsome : ((db.orders.map
      (OrderRepository.apply_status o.id .paid (some w.now))).find?
        (fun o1 => o1.id == o.id)).isSome :=
    List.find?_isSome.2 ⟨_, hpm, hpx⟩
  obtain ⟨x, hx⟩ := Option.isSome_iff_exists.1 hsome
  unfold BillingService.handle_payment_succeeded
  simp only [hord, hnp, Bool.false_eq_true, if_false,
    OrderRepository.update_status, WebhookEventRepository.orders_mark_processed,
    hx]
  unfold PaymentAuditRepository.log_action
    OrderEventPublisher.publish_order_paid OrderEventPublisher.publish
  simp [hb]

/-- C6: within one webhook-processing call that applies the paid transition,
the side effects happen in the strict order: order-status store mutation,
then audit write, then domain-event publish (the effect log extends by
exactly that sequence, after the webhook-row bookkeeping mark); when the
publish fails the store and audit writes are already committed — the final
state still carries the status update and the new audit row — and the
failure propagates as the error of the whole `process_webhook` call. -/
theorem payment_succeeded_effect_order (w : World) (db : DB)
    (ev : StripeEvent) (rid : Nat) (o : Order)
    (hord : OrderRepository.get_by_payment_intent_id db ev.payment_intent_id
      = some o)
    (hnp : (o.status == OrderStatus.paid) = false) :
    (w.broker_ok = true →
      ∃ pe, (BillingService.handle_payment_succeeded w db ev rid).1.log =
        db.log ++ [.webhookMarkProcessed rid true,
          .storeUpdateStatus o.id .paid, .auditWrite o.id "payment_succeeded",
          .publish pe] ∧
        (BillingService.handle_payment_succeeded w db ev rid).2 = .ok ()) ∧
    (w.broker_ok = false →
      (BillingService.handle_payment_succeeded w db ev rid).1.log =
        db.log ++ [.webhookMarkProcessed rid true,
          .storeUpdateStatus o.id .paid,
          .auditWrite o.id "payment_succeeded"] ∧
      (BillingService.handle_payment_succeeded w db ev rid).2 =
        .error (.exc "publish failed") ∧
      (∃ arow, (BillingService.handle_payment_succeeded w db ev rid).1.audits
        = db.audits ++ [arow] ∧ arow.action = "payment_succeeded") ∧
      (∀ o' ∈ (BillingService.handle_payment_succeeded w db ev rid).1.orders,
        o'.id = o.id → o'.status = .paid)) ∧
    (∀ raw, ev.type = "payment_intent.succeeded" →
      WebhookEventRepository.get_by_stripe_event_id db ev.id = none →
      w.broker_ok = false →
      (BillingService.process_webhook w db ev raw).2 =
        .error (.exc "publish failed")) := by
  obtain ⟨pe, hlog⟩ :=
    BillingService.handle_payment_succeeded_log w db ev rid o hord hnp
  refine ⟨?_, ?_, ?_⟩
  · intro hb
    refine ⟨pe, ?_,
      BillingService.handle_payment_succeeded_ok_of_broker_up w db ev rid o
        hord hnp hb⟩
    rw [hlog, hb]
    simp
  · intro hb
    refine ⟨?_,
      BillingService.handle_payment_succeeded_error_of_broker_down w db ev rid
        o hord hnp hb,
      ⟨_, BillingService.handle_payment_succeeded_audits w db ev rid o hord hnp,
        rfl⟩, ?_⟩
    · rw [hlog, hb]
      simp
    · intro o' hmem hid
      rw [BillingService.handle_payment_succeeded_orders w db ev rid o hord
        hnp] at hmem
      exact OrderRepository.apply_status_id_mem o.id .paid (some w.now)
        db.orders o' hmem hid
  · intro raw htype hfresh hb
    rw [BillingService.process_webhook_fresh w db ev raw hfresh]
    have herr := BillingService.handle_payment_succeeded_error_of_broker_down w
      (WebhookEventRepository.mark_processing
        (WebhookEventRepository.create db w.now ev.id
          "payment_intent.succeeded" raw
          (StripeService.extract_order_id_from_event ev)).1 w.now
        (WebhookEventRepository.create db w.now ev.id
          "payment_intent.succeeded" raw
          (StripeService.extract_order_id_from_event ev)).2.id) ev
      (WebhookEventRepository.create db w.now ev.id
        "payment_intent.succeeded" raw
        (StripeService.extract_order_id_from_event ev)).2.id o hord hnp hb
    unfold BillingService.process_webhook_dispatch
    simp only [htype]
    rw [if_pos (by decide :
      (("payment_intent.succeeded" == "payment_intent.succeeded") = true))]
    cases hr : BillingService.handle_payment_succeeded w
        (WebhookEventRepository.mark_processing
          (WebhookEventRepository.create db w.now ev.id
            "payment_intent.succeeded" raw
            (StripeService.extract_order_id_from_event ev)).1 w.now
          (WebhookEventRepository.create db w.now ev.id
            "payment_intent.succeeded" raw
            (StripeService.extract_order_id_from_event ev)).2.id) ev
        (WebhookEventRepository.create db w.now ev.id
          "payment_intent.succeeded" raw
          (StripeService.extract_order_id_from_event ev)).2.id with
    | mk db3 r3 =>
      rw [hr] at herr
      obtain rfl : r3 = .error (.exc "publish failed") := herr
      rfl

theorem payment_succeeded_effect_order_witness :
    (∃ pe, (BillingService.handle_payment_succeeded sampleWorld samplePendingDB
        sampleSucceededEvent 0).1.log =
      samplePendingDB.log ++ [.webhookMarkProcessed 0 true,
        .storeUpdateStatus samplePendingOrder.id .paid,
        .auditWrite samplePendingOrder.id "payment_succeeded", .publish pe] ∧
      (BillingService.handle_payment_succeeded sampleWorld samplePendingDB
        sampleSucceededEvent 0).2 = .ok ()) ∧
    (BillingService.handle_payment_succeeded sampleBrokerDownWorld
        samplePendingDB sampleSucceededEvent 0).1.log =
      samplePendingDB.log ++ [.webhookMarkProcessed 0 true,
        .storeUpdateStatus samplePendingOrder.id .paid,
        .auditWrite samplePendingOrder.id "payment_succeeded"] ∧
    (BillingService.process_webhook sampleBrokerDownWorld samplePendingDB
        sampleSucceededEvent "raw").2 = .error (.exc "publish failed") :=
  ⟨(payment_succeeded_effect_order sampleWorld samplePendingDB
      sampleSucceededEvent 0 samplePendingOrder (by decide) (by decide)).1 rfl,
   ((payment_succeeded_effect_order sampleBrokerDownWorld samplePendingDB
      sampleSucceededEvent 0 samplePendingOrder (by decide) (by decide)).2.1
        rfl).1,
   (payment_succeeded_effect_order sampleBrokerDownWorld samplePendingDB
      sampleSucceededEvent 0 samplePendingOrder (by decide) (by decide)).2.2
        "raw" rfl (by decide) rfl⟩

/-- C9: `ListOrders(user, page, page_size)` returns the slice of the user's
status-filtered orders ranked (page−1)·size+1 … page·size under the
creation-time-descending ordering (fewer if the list ends), together with a
total equal to the full matching count; the returned ordering really is
sorted by `created_at` descending and is a permutation of the matching set,
and the total does not depend on the page or page size. -/
theorem list_orders_pagination (db : DB) (user_id page page_size : Nat)
    (status : Option OrderStatus) (_hp : 1 ≤ page) :
    (BillingService.get_user_orders db user_id page page_size status).2 =
      (db.orders.filter (fun o =>
        o.user_id == user_id &&
          (match status with
           | none => true
           | some s => o.status == s))).length ∧
    (BillingService.get_user_orders db user_id page page_size status).1 =
      (((db.orders.filter (fun o =>
          o.user_id == user_id &&
            (match status with
             | none => true
             | some s => o.status == s))).mergeSort
          (fun a b => decide (b.created_at ≤ a.created_at))).drop
        ((page - 1) * page_size)).take page_size ∧
    ((db.orders.filter (fun o =>
        o.user_id == user_id &&
          (match status with
           | none => true
           | some s => o.status == s))).mergeSort
        (fun a b => decide (b.created_at ≤ a.created_at))).Pairwise
      (fun a b => b.created_at ≤ a.created_at) ∧
    ((db.orders.filter (fun o =>
        o.user_id == user_id &&
          (match status with
           | none => true
           | some s => o.status == s))).mergeSort
        (fun a b => decide (b.created_at ≤ a.created_at))).Perm
      (db.orders.filter (fun o =>
        o.user_id == user_id &&
          (match status with
           | none => true
           | some s => o.status == s))) ∧
    (∀ p' s', (BillingService.get_user_orders db user_id p' s' status).2 =
      (BillingService.get_user_orders db user_id page page_size status).2) := by
  refine ⟨rfl, rfl, ?_, List.mergeSort_perm _ _, fun p' s' => rfl⟩
  have h := @List.sorted_mergeSort Order
    (fun a b => decide (b.created_at ≤ a.created_at))
    (fun a b c hab hbc => by
      simp only [decide_eq_true_eq] at hab hbc ⊢
      omega)
    (fun a b => by
      simp only [Bool.or_eq_true, decide_eq_true_eq]
      exact Nat.le_total b.created_at a.created_at)
    (db.orders.filter (fun o =>
      o.user_id == user_id &&
        (match status with
         | none => true
         | some s => o.status == s)))
  exact h.imp (fun hab => of_decide_eq_true hab)

theorem list_orders_pagination_witness :
    1 ≤ 2 ∧
    (BillingService.get_user_orders samplePaidDB 7 2 10 none).2 =
      (samplePaidDB.orders.filter (fun o =>
        o.user_id == 7 &&
          (match (none : Option OrderStatus) with
           | none => true
           | some s => o.status == s))).length :=
  ⟨by decide,
   (list_orders_pagination samplePaidDB 7 2 10 none (by decide)).1⟩

/-- `_handle_payment_succeeded` with no matching order is a no-op. -/
theorem BillingService.handle_payment_succeeded_orphan (w : World) (db : DB)
    (ev : StripeEvent) (rid : Nat)
    (hord : OrderRepository.get_by_payment_intent_id db ev.payment_intent_id
      = none) :
    BillingService.handle_payment_succeeded w db ev rid = (db, .ok ()) := by
  unfold BillingService.handle_payment_succeeded
  simp [hord]

/-- `_handle_payment_failed` with no matching order is a no-op. -/
theorem BillingService.handle_payment_failed_orphan (w : World) (db : DB)
    (ev : StripeEvent) (rid : Nat)
    (hord : OrderRepository.get_by_payment_intent_id db ev.payment_intent_id
      = none) :
    BillingService.handle_payment_failed w db ev rid = (db, .ok ()) := by
  unfold BillingService.handle_payment_failed
  simp [hord]

/-- `_handle_payment_canceled` with no matching order is a no-op. -/
theorem BillingService.handle_payment_canceled_orphan (w : World) (db : DB)
    (ev : StripeEvent) (rid : Nat)
    (hord : OrderRepository.get_by_payment_intent_id db ev.payment_intent_id
      = none) :
    BillingService.handle_payment_canceled w db ev rid = (db, .ok ()) := by
  unfold BillingService.handle_payment_canceled
  simp [hord]

/-- Dispatch of a succeeded event on a not-yet-paid order updates the orders
table to the paid image. -/
theorem BillingService.process_webhook_dispatch_orders_succeeded (w : World)
    (db : DB) (ev : StripeEvent) (rid : Nat) (o : Order)
    (htype : ev.type = "payment_intent.succeeded")
    (hord : OrderRepository.get_by_payment_intent_id db ev.payment_intent_id
      = some o)
    (hnp : (o.status == OrderStatus.paid) = false) :
    (BillingService.process_webhook_dispatch w db ev rid).1.orders
      = db.orders.map (OrderRepository.apply_status o.id .paid (some w.now)) := by
  have hord' : OrderRepository.get_by_payment_intent_id
      (WebhookEventRepository.mark_processing db w.now rid)
      ev.payment_intent_id = some o := hord
  have horders := BillingService.handle_payment_succeeded_orders w
    (WebhookEventRepository.mark_processing db w.now rid) ev rid o hord' hnp
  simp only [WebhookEventRepository.orders_mark_processing] at horders
  unfold BillingService.process_webhook_dispatch
  simp only [htype]
  cases hr : BillingService.handle_payment_succeeded w
      (WebhookEventRepository.mark_processing db w.now rid) ev rid with
  | mk db1 r =>
    rw [hr] at horders
    simp at horders
    cases r <;> simp [horders]

/-- Dispatch of an event whose order cannot be resolved leaves the orders
table unchanged. -/
theorem BillingService.process_webhook_dispatch_orders_orphan (w : World)
    (db : DB) (ev : StripeEvent) (rid : Nat)
    (hord : OrderRepository.get_by_payment_intent_id db ev.payment_intent_id
      = none) :
    (BillingService.process_webhook_dispatch w db ev rid).1.orders
      = db.orders := by
  have hord' : OrderRepository.get_by_payment_intent_id
      (WebhookEventRepository.mark_processing db w.now rid)
      ev.payment_intent_id = none := hord
  unfold BillingService.process_webhook_dispatch
  by_cases h1 : (ev.type == "payment_intent.succeeded") = true
  · simp [BillingService.handle_payment_succeeded_orphan w _ ev rid hord', h1]
  · by_cases h2 : (ev.type == "payment_intent.payment_failed") = true
    · simp [BillingService.handle_payment_failed_orphan w _ ev rid hord', h1, h2]
    · by_cases h3 : (ev.type == "payment_intent.canceled") = true
      · simp [BillingService.handle_payment_canceled_orphan w _ ev rid hord',
          h1, h2, h3]
      · simp [h1, h2, h3]

/-- Dispatch of an unhandled event type leaves the orders table unchanged. -/
theorem BillingService.process_webhook_dispatch_orders_unhandled (w : World)
    (db : DB) (ev : StripeEvent) (rid : Nat)
    (h1 : (ev.type == "payment_intent.succeeded") = false)
    (h2 : (ev.type == "payment_intent.payment_failed") = false)
    (h3 : (ev.type == "payment_intent.canceled") = false) :
    (BillingService.process_webhook_dispatch w db ev rid).1.orders
      = db.orders := by
  unfold BillingService.process_webhook_dispatch
  simp [h1, h2, h3]

/-- How one orchestrator operation can change the orders table: unchanged;
a fresh `created` order appended (id = the counter); that plus the
payment-intent update on the fresh order; a bulk status update to `failed` or
`cancelled` with `paid_at` untouched; or a bulk status update to `paid`
carrying `paid_at`, applied only when the resolved order was not yet paid. -/
def OrdersEvolve (l : List Order) (n : Nat) (l' : List Order) (n' : Nat) :
    Prop :=
  (l' = l ∧ n' = n) ∨
  (∃ o_new : Order, o_new.id = n ∧ o_new.status = .created ∧
    o_new.paid_at = none ∧ l' = l ++ [o_new] ∧ n' = n + 1) ∨
  (∃ (o_new : Order) (pid cs : String), o_new.id = n ∧
    o_new.status = .created ∧ o_new.paid_at = none ∧
    l' = (l ++ [o_new]).map (OrderRepository.apply_intent o_new.id pid cs) ∧
    n' = n + 1) ∨
  (∃ oid st, (st = OrderStatus.cancelled ∨ st = OrderStatus.failed) ∧
    l' = l.map (OrderRepository.apply_status oid st none) ∧ n' = n) ∨
  (∃ oid t o0, o0 ∈ l ∧ o0.id = oid ∧ o0.status ≠ .paid ∧
    l' = l.map (OrderRepository.apply_status oid .paid (some t)) ∧ n' = n)

theorem BillingService.handle_payment_succeeded_evolve (w : World) (db : DB)
    (ev : StripeEvent) (rid : Nat) :
    OrdersEvolve db.orders db.next_order_id
      (BillingService.handle_payment_succeeded w db ev rid).1.orders
      (BillingService.handle_payment_succeeded w db ev rid).1.next_order_id := by
  unfold BillingService.handle_payment_succeeded
  cases hord : OrderRepository.get_by_payment_intent_id db
      ev.payment_intent_id with
  | none =>
    simp only [hord]
    exact Or.inl ⟨rfl, rfl⟩
  | some o =>
    have hmem : o ∈ db.orders := List.mem_of_find?_eq_some hord
    simp only [hord]
    by_cases hp : (o.status == OrderStatus.paid) = true
    · simp only [hp, if_true]
      exact Or.inl ⟨rfl, rfl⟩
    · have hnp : o.status ≠ .paid := by
        intro hc
        rw [hc] at hp
        simp at hp
      simp only [hp, Bool.false_eq_true, if_false,
        OrderRepository.update_status,
        WebhookEventRepository.orders_mark_processed]
      cases hf : (db.orders.map
          (OrderRepository.apply_status o.id OrderStatus.paid
            (some w.now))).find? (fun o1 => o1.id == o.id) with
      | none =>
        simp only [hf]
        exact Or.inr (Or.inr (Or.inr (Or.inr
          ⟨o.id, w.now, o, hmem, rfl, hnp, rfl, rfl⟩)))
      | some x =>
        simp only [hf]
        unfold PaymentAuditRepository.log_action
          OrderEventPublisher.publish_order_paid OrderEventPublisher.publish
        cases hb : w.broker_ok <;>
          simp only [hb, if_true, Bool.false_eq_true, if_false] <;>
          exact Or.inr (Or.inr (Or.inr (Or.inr
            ⟨o.id, w.now, o, hmem, rfl, hnp, rfl, rfl⟩)))

theorem BillingService.handle_payment_failed_evolve (w : World) (db : DB)
    (ev : StripeEvent) (rid : Nat) :
    OrdersEvolve db.orders db.next_order_id
      (BillingService.handle_payment_failed w db ev rid).1.orders
      (BillingService.handle_payment_failed w db ev rid).1.next_order_id := by
  unfold BillingService.handle_payment_failed
  cases hord : OrderRepository.get_by_payment_intent_id db
      ev.payment_intent_id with
  | none =>
    simp only [hord]
    exact Or.inl ⟨rfl, rfl⟩
  | some o =>
    simp only [hord, OrderRepository.update_status,
      WebhookEventRepository.orders_mark_processed]
    cases hf : (db.orders.map
        (OrderRepository.apply_status o.id OrderStatus.failed none)).find?
        (fun o1 => o1.id == o.id) with
    | none =>
      simp only [hf]
      exact Or.inr (Or.inr (Or.inr (Or.inl
        ⟨o.id, .failed, Or.inr rfl, rfl, rfl⟩)))
    | some x =>
      simp only [hf]
      unfold PaymentAuditRepository.log_action
        OrderEventPublisher.publish_order_failed OrderEventPublisher.publish
      cases hb : w.broker_ok <;>
        simp only [hb, if_true, Bool.false_eq_true, if_false] <;>
        exact Or.inr (Or.inr (Or.inr (Or.inl
          ⟨o.id, .failed, Or.inr rfl, rfl, rfl⟩)))

theorem BillingService.handle_payment_canceled_evolve (w : World) (db : DB)
    (ev : StripeEvent) (rid : Nat) :
    OrdersEvolve db.orders db.next_order_id
      (BillingService.handle_payment_canceled w db ev rid).1.orders
      (BillingService.handle_payment_canceled w db ev rid).1.next_order_id := by
  unfold BillingService.handle_payment_canceled
  cases hord : OrderRepository.get_by_payment_intent_id db
      ev.payment_intent_id with
  | none =>
    simp only [hord]
    exact Or.inl ⟨rfl, rfl⟩
  | some o =>
    simp only [hord, OrderRepository.update_status,
      WebhookEventRepository.orders_mark_processed]
    cases hf : (db.orders.map
        (OrderRepository.apply_status o.id OrderStatus.cancelled none)).find?
        (fun o1 => o1.id == o.id) with
    | none =>
      simp only [hf]
      exact Or.inr (Or.inr (Or.inr (Or.inl
        ⟨o.id, .cancelled, Or.inl rfl, rfl, rfl⟩)))
    | some x =>
      simp only [hf]
      unfold PaymentAuditRepository.log_action
      exact Or.inr (Or.inr (Or.inr (Or.inl
        ⟨o.id, .cancelled, Or.inl rfl, rfl, rfl⟩)))

theorem BillingService.process_webhook_dispatch_evolve (w : World) (db : DB)
    (ev : StripeEvent) (rid : Nat) :
    OrdersEvolve db.orders db.next_order_id
      (BillingService.process_webhook_dispatch w db ev rid).1.orders
      (BillingService.process_webhook_dispatch w db ev rid).1.next_order_id := by
  unfold BillingService.process_webhook_dispatch
  by_cases h1 : (ev.type == "payment_intent.succeeded") = true
  · simp only [h1, if_true]
    have hs := BillingService.handle_payment_succeeded_evolve w
      (WebhookEventRepository.mark_processing db w.now rid) ev rid
    cases hr : BillingService.handle_payment_succeeded w
        (WebhookEventRepository.mark_processing db w.now rid) ev rid with
    | mk db3 r3 =>
      rw [hr] at hs
      cases r3 <;> exact hs
  · simp only [h1, Bool.false_eq_true, if_false]
    by_cases h2 : (ev.type == "payment_intent.payment_failed") = true
    · simp only [h2, if_true]
      have hs := BillingService.handle_payment_failed_evolve w
        (WebhookEventRepository.mark_processing db w.now rid) ev rid
      cases hr : BillingService.handle_payment_failed w
          (WebhookEventRepository.mark_processing db w.now rid) ev rid with
      | mk db3 r3 =>
        rw [hr] at hs
        cases r3 <;> exact hs
    · simp only [h2, Bool.false_eq_true, if_false]
      by_cases h3 : (ev.type == "payment_intent.canceled") = true
      · simp only [h3, if_true]
        have hs := BillingService.handle_payment_canceled_evolve w
          (WebhookEventRepository.mark_processing db w.now rid) ev rid
        cases hr : BillingService.handle_payment_canceled w
            (WebhookEventRepository.mark_processing db w.now rid) ev rid with
        | mk db3 r3 =>
          rw [hr] at hs
          cases r3 <;> exact hs
      · simp only [h3, Bool.false_eq_true, if_false]
        exact Or.inl ⟨rfl, rfl⟩

theorem BillingService.process_webhook_evolve (w : World) (db : DB)
    (ev : StripeEvent) (raw : String) :
    OrdersEvolve db.orders db.next_order_id
      (BillingService.process_webhook w db ev raw).1.orders
      (BillingService.process_webhook w db ev raw).1.next_order_id := by
  unfold BillingService.process_webhook
  cases hlook : WebhookEventRepository.get_by_stripe_event_id db ev.id with
  | some row =>
    simp only [hlook]
    by_cases hp : row.processed = true
    · rw [if_pos hp]
      exact Or.inl ⟨rfl, rfl⟩
    · rw [if_neg hp]
      exact BillingService.process_webhook_dispatch_evolve w
        (WebhookEventRepository.increment_retry_count db row.id) ev row.id
  | none =>
    simp only [hlook, WebhookEventRepository.create]
    exact BillingService.process_webhook_dispatch_evolve w _ ev _

theorem BillingService.cancel_order_evolve (w : World) (db : DB)
    (order_id user_id : Nat) :
    OrdersEvolve db.orders db.next_order_id
      (BillingService.cancel_order w db order_id user_id).1.orders
      (BillingService.cancel_order w db order_id user_id).1.next_order_id := by
  unfold BillingService.cancel_order
  cases hfind : OrderRepository.get_by_id db order_id with
  | none =>
    simp only [hfind]
    exact Or.inl ⟨rfl, rfl⟩
  | some o =>
    simp only [hfind]
    by_cases hu : (o.user_id != user_id) = true
    · simp only [hu, if_true]
      exact Or.inl ⟨rfl, rfl⟩
    · simp only [hu, Bool.false_eq_true, if_false]
      by_cases hst : (!(o.status == OrderStatus.created ||
          o.status == OrderStatus.pending_payment)) = true
      · simp only [hst, if_true]
        exact Or.inl ⟨rfl, rfl⟩
      · simp only [hst, Bool.false_eq_true, if_false,
          OrderRepository.update_status]
        cases hi : o.stripe_payment_intent_id with
        | none =>
          simp only [hi]
          cases hf : (db.orders.map
              (OrderRepository.apply_status o.id OrderStatus.cancelled
                none)).find? (fun o1 => o1.id == o.id) with
          | none =>
            simp only [hf]
            exact Or.inr (Or.inr (Or.inr (Or.inl
              ⟨o.id, .cancelled, Or.inl rfl, rfl, rfl⟩)))
          | some x =>
            simp only [hf]
            unfold PaymentAuditRepository.log_action
            exact Or.inr (Or.inr (Or.inr (Or.inl
              ⟨o.id, .cancelled, Or.inl rfl, rfl, rfl⟩)))
        | some intent =>
          simp only [hi]
          unfold StripeService.cancel_payment_intent
          cases hok : w.cancel_intent_ok <;>
            simp only [hok, if_true, Bool.false_eq_true, if_false] <;>
            cases hf : (db.orders.map
              (OrderRepository.apply_status o.id OrderStatus.cancelled
                none)).find? (fun o1 => o1.id == o.id) <;>
            simp only [hf] <;>
            exact Or.inr (Or.inr (Or.inr (Or.inl
              ⟨o.id, .cancelled, Or.inl rfl, rfl, rfl⟩)))

theorem BillingService.create_order_evolve (w : World) (db : DB)
    (pricing : PackagePricing) (user_id : Nat) (package_type : PackageType)
    (metadata : Option String) :
    OrdersEvolve db.orders db.next_order_id
      (BillingService.create_order w db pricing user_id package_type
        metadata).1.orders
      (BillingService.create_order w db pricing user_id package_type
        metadata).1.next_order_id := by
  unfold BillingService.create_order
  simp only [OrderRepository.create, PaymentAuditRepository.log_action]
  unfold StripeService.create_payment_intent
  cases hc : w.create_intent_result with
  | none =>
    simp only [hc]
    exact Or.inr (Or.inl ⟨_, rfl, rfl, rfl, rfl, rfl⟩)
  | some pc =>
    cases pc with
    | mk pid cs =>
      simp only [hc, OrderRepository.update_payment_intent]
      split
      · rename_i db2 heq
        injection heq with h1 h2
        subst h1
        exact Or.inr (Or.inr (Or.inl
          ⟨{ id := db.next_order_id, user_id := user_id,
             package_type := package_type,
             amount := (BillingService.get_package_info pricing package_type).price,
             currency := (BillingService.get_package_info pricing package_type).currency,
             status := .created, stripe_payment_intent_id := none,
             stripe_client_secret := none,
             description := some (BillingService.get_package_info pricing package_type).name,
             extra_metadata := metadata, created_at := w.now,
             paid_at := none }, pid, cs, rfl, rfl, rfl, rfl, rfl⟩))
      · rename_i db2 order heq
        injection heq with h1 h2
        subst h1
        unfold OrderEventPublisher.publish_order_created
          OrderEventPublisher.publish
        cases hb : w.broker_ok <;>
          simp only [hb, if_true, Bool.false_eq_true, if_false] <;>
          exact Or.inr (Or.inr (Or.inl
            ⟨{ id := db.next_order_id, user_id := user_id,
               package_type := package_type,
               amount := (BillingService.get_package_info pricing package_type).price,
               currency := (BillingService.get_package_info pricing package_type).currency,
               status := .created, stripe_payment_intent_id := none,
               stripe_client_secret := none,
               description := some (BillingService.get_package_info pricing package_type).name,
               extra_metadata := metadata, created_at := w.now,
               paid_at := none }, pid, cs, rfl, rfl, rfl, rfl, rfl⟩))

/-- Every orchestrator step changes the orders table and order-id counter
only in one of the `OrdersEvolve` shapes. -/
theorem Op.step_evolve (db : DB) (op : Op) :
    OrdersEvolve db.orders db.next_order_id (Op.step db op).orders
      (Op.step db op).next_order_id := by
  cases op with
  | createOrder w pricing user_id package_type metadata =>
    exact BillingService.create_order_evolve w db pricing user_id package_type
      metadata
  | cancelOrder w order_id user_id =>
    exact BillingService.cancel_order_evolve w db order_id user_id
  | processWebhook w ev raw =>
    exact BillingService.process_webhook_evolve w db ev raw

@[simp]
theorem OrderRepository.apply_status_id (oid : Nat) (st : OrderStatus)
    (pa : Option Nat) (o : Order) :
    (OrderRepository.apply_status oid st pa o).id = o.id := by
  unfold OrderRepository.apply_status
  by_cases h : (o.id == oid) = true <;> cases hp : pa.isSome <;> simp [h, hp]

@[simp]
theorem OrderRepository.apply_intent_id (oid : Nat) (pid cs : String)
    (o : Order) :
    (OrderRepository.apply_intent oid pid cs o).id = o.id := by
  unfold OrderRepository.apply_intent
  by_cases h : (o.id == oid) = true <;> simp [h]

@[simp]
theorem OrderRepository.apply_intent_paid_at (oid : Nat) (pid cs : String)
    (o : Order) :
    (OrderRepository.apply_intent oid pid cs o).paid_at = o.paid_at := by
  unfold OrderRepository.apply_intent
  by_cases h : (o.id == oid) = true <;> simp [h]

@[simp]
theorem OrderRepository.apply_status_none_paid_at (oid : Nat)
    (st : OrderStatus) (o : Order) :
    (OrderRepository.apply_status oid st none o).paid_at = o.paid_at := by
  unfold OrderRepository.apply_status
  by_cases h : (o.id == oid) = true <;> simp [h]

theorem OrderRepository.apply_status_some_paid_at_isSome (oid : Nat)
    (st : OrderStatus) (t : Nat) (o : Order) (h : o.paid_at.isSome) :
    (OrderRepository.apply_status oid st (some t) o).paid_at.isSome := by
  unfold OrderRepository.apply_status
  by_cases hc : (o.id == oid) = true <;> simp [hc, h]

/-- The orders table is well formed: primary keys are pairwise distinct and
below the id counter. -/
def OrdersWfL (l : List Order) (n : Nat) : Prop :=
  l.Pairwise (fun a b => a.id ≠ b.id) ∧ ∀ o ∈ l, o.id < n

theorem OrdersWfL.unique {l : List Order} {n : Nat} (h : OrdersWfL l n)
    {a b : Order} (ha : a ∈ l) (hb : b ∈ l) (hid : a.id = b.id) : a = b := by
  by_contra hne
  exact absurd hid (List.Pairwise.forall (fun _ _ hx => Ne.symm hx) h.1 ha hb hne)

theorem OrdersWfL.append_fresh {l : List Order} {n : Nat} (h : OrdersWfL l n)
    (o_new : Order) (hid : o_new.id = n) : OrdersWfL (l ++ [o_new]) (n + 1) := by
  obtain ⟨hpw, hbound⟩ := h
  constructor
  · rw [List.pairwise_append]
    refine ⟨hpw, List.pairwise_singleton _ _, ?_⟩
    intro a ha b hb
    simp only [List.mem_singleton] at hb
    subst hb
    have := hbound a ha
    omega
  · intro o ho
    rcases List.mem_append.1 ho with h1 | h1
    · exact Nat.lt_trans (hbound o h1) (Nat.lt_succ_self n)
    · simp only [List.mem_singleton] at h1
      subst h1
      omega

theorem OrdersWfL.map_id_preserving {l : List Order} {n : Nat}
    (h : OrdersWfL l n) (f : Order → Order) (hf : ∀ o, (f o).id = o.id) :
    OrdersWfL (l.map f) n := by
  obtain ⟨hpw, hbound⟩ := h
  constructor
  · exact List.Pairwise.map f (fun a b hab => by rw [hf a, hf b]; exact hab) hpw
  · intro o ho
    obtain ⟨x, hx, rfl⟩ := List.mem_map.1 ho
    rw [hf x]
    exact hbound x hx

theorem OrdersEvolve.wf {l : List Order} {n : Nat} {l' : List Order} {n' : Nat}
    (he : OrdersEvolve l n l' n') (h : OrdersWfL l n) : OrdersWfL l' n' := by
  rcases he with ⟨hl, hn⟩ | ⟨o_new, hid, -, -, hl, hn⟩ |
    ⟨o_new, pid, cs, hid, -, -, hl, hn⟩ | ⟨oid, st, -, hl, hn⟩ |
    ⟨oid, t, o0, -, -, -, hl, hn⟩
  · subst hl; subst hn; exact h
  · subst hl; subst hn
    exact h.append_fresh o_new hid
  · subst hl; subst hn
    exact (h.append_fresh o_new hid).map_id_preserving _
      (OrderRepository.apply_intent_id o_new.id pid cs)
  · subst hl; subst hn
    exact h.map_id_preserving _ (OrderRepository.apply_status_id oid st none)
  · subst hl; subst hn
    exact h.map_id_preserving _
      (OrderRepository.apply_status_id oid .paid (some t))

theorem OrdersEvolve.persist {l : List Order} {n : Nat} {l' : List Order}
    {n' : Nat} (he : OrdersEvolve l n l' n') :
    ∀ o ∈ l, ∃ o' ∈ l', o'.id = o.id ∧
      (o.paid_at.isSome → o'.paid_at.isSome) := by
  intro o ho
  rcases he with ⟨hl, -⟩ | ⟨o_new, -, -, -, hl, -⟩ |
    ⟨o_new, pid, cs, -, -, -, hl, -⟩ | ⟨oid, st, -, hl, -⟩ |
    ⟨oid, t, o0, -, -, -, hl, -⟩
  · subst hl; exact ⟨o, ho, rfl, id⟩
  · subst hl; exact ⟨o, List.mem_append_left _ ho, rfl, id⟩
  · subst hl
    refine ⟨OrderRepository.apply_intent o_new.id pid cs o,
      List.mem_map_of_mem _ (List.mem_append_left _ ho),
      OrderRepository.apply_intent_id o_new.id pid cs o, ?_⟩
    rw [OrderRepository.apply_intent_paid_at]
    exact id
  · subst hl
    refine ⟨OrderRepository.apply_status oid st none o,
      List.mem_map_of_mem _ ho,
      OrderRepository.apply_status_id oid st none o, ?_⟩
    rw [OrderRepository.apply_status_none_paid_at]
    exact id
  · subst hl
    exact ⟨OrderRepository.apply_status oid .paid (some t) o,
      List.mem_map_of_mem _ ho,
      OrderRepository.apply_status_id oid .paid (some t) o,
      OrderRepository.apply_status_some_paid_at_isSome oid .paid t o⟩

theorem OrdersEvolve.origin {l : List Order} {n : Nat} {l' : List Order}
    {n' : Nat} (he : OrdersEvolve l n l' n') :
    ∀ o1 ∈ l', o1.paid_at.isSome →
      (∃ o0, o0 ∈ l ∧ o0.id = o1.id ∧ o0.paid_at.isSome) ∨
      o1.status = .paid := by
  intro o1 h1 hs
  rcases he with ⟨hl, -⟩ | ⟨o_new, -, -, hpa, hl, -⟩ |
    ⟨o_new, pid, cs, -, -, hpa, hl, -⟩ | ⟨oid, st, -, hl, -⟩ |
    ⟨oid, t, o0, -, -, -, hl, -⟩
  · subst hl; exact Or.inl ⟨o1, h1, rfl, hs⟩
  · subst hl
    rcases List.mem_append.1 h1 with h | h
    · exact Or.inl ⟨o1, h, rfl, hs⟩
    · simp only [List.mem_singleton] at h
      subst h
      rw [hpa] at hs
      simp at hs
  · subst hl
    obtain ⟨x, hx, rfl⟩ := List.mem_map.1 h1
    rcases List.mem_append.1 hx with h | h
    · refine Or.inl ⟨x, h, (OrderRepository.apply_intent_id _ _ _ x).symm, ?_⟩
      rwa [OrderRepository.apply_intent_paid_at] at hs
    · simp only [List.mem_singleton] at h
      subst h
      rw [OrderRepository.apply_intent_paid_at, hpa] at hs
      simp at hs
  · subst hl
    obtain ⟨x, hx, rfl⟩ := List.mem_map.1 h1
    refine Or.inl ⟨x, hx, (OrderRepository.apply_status_id _ _ _ x).symm, ?_⟩
    rwa [OrderRepository.apply_status_none_paid_at] at hs
  · subst hl
    obtain ⟨x, hx, rfl⟩ := List.mem_map.1 h1
    by_cases hc : (x.id == oid) = true
    · right
      unfold OrderRepository.apply_status
      simp [hc]
    · left
      refine ⟨x, hx, ?_, ?_⟩
      · exact (OrderRepository.apply_status_id _ _ _ x).symm
      · unfold OrderRepository.apply_status at hs
        simpa [hc] using hs

theorem OrdersEvolve.Kpres {l : List Order} {n : Nat} {l' : List Order}
    {n' : Nat} (he : OrdersEvolve l n l' n')
    (hK : ∀ o ∈ l, o.status = .paid → o.paid_at.isSome) :
    ∀ o' ∈ l', o'.status = .paid → o'.paid_at.isSome := by
  intro o' h' hst
  rcases he with ⟨hl, -⟩ | ⟨o_new, -, hstat, -, hl, -⟩ |
    ⟨o_new, pid, cs, -, hstat, -, hl, -⟩ | ⟨oid, st, hstor, hl, -⟩ |
    ⟨oid, t, o0, -, -, -, hl, -⟩
  · subst hl; exact hK o' h' hst
  · subst hl
    rcases List.mem_append.1 h' with h | h
    · exact hK o' h hst
    · simp only [List.mem_singleton] at h
      subst h
      rw [hstat] at hst
      exact absurd hst (by simp)
  · subst hl
    obtain ⟨x, hx, rfl⟩ := List.mem_map.1 h'
    unfold OrderRepository.apply_intent at hst ⊢
    by_cases hc : (x.id == o_new.id) = true
    · simp only [hc, if_true] at hst
      exact absurd hst (by simp)
    · simp only [hc, Bool.false_eq_true, if_false] at hst ⊢
      rcases List.mem_append.1 hx with h | h
      · exact hK x h hst
      · simp only [List.mem_singleton] at h
        subst h
        rw [hstat] at hst
        exact absurd hst (by simp)
  · subst hl
    obtain ⟨x, hx, rfl⟩ := List.mem_map.1 h'
    unfold OrderRepository.apply_status at hst ⊢
    by_cases hc : (x.id == oid) = true
    · simp only [hc, if_true, Option.isSome_none, Bool.false_eq_true,
        if_false] at hst ⊢
      rcases hstor with h | h <;> rw [h] at hst <;> exact absurd hst (by simp)
    · simp only [hc, Bool.false_eq_true, if_false] at hst ⊢
      exact hK x hx hst
  · subst hl
    obtain ⟨x, hx, rfl⟩ := List.mem_map.1 h'
    unfold OrderRepository.apply_status
    by_cases hc : (x.id == oid) = true
    · simp [hc]
    · simp only [hc, Bool.false_eq_true, if_false]
      unfold OrderRepository.apply_status at hst
      simp only [hc, Bool.false_eq_true, if_false] at hst
      exact hK x hx hst

theorem OrdersEvolve.change {l : List Order} {n : Nat} {l' : List Order}
    {n' : Nat} (he : OrdersEvolve l n l' n') (hwf : OrdersWfL l n) :
    ∀ o0 ∈ l, ∀ o1 ∈ l', o1.id = o0.id → o1.paid_at ≠ o0.paid_at →
      o1.status = .paid ∧ o0.status ≠ .paid ∧ o1.paid_at.isSome := by
  intro o0 h0 o1 h1 hid hne
  rcases he with ⟨hl, -⟩ | ⟨o_new, hnid, -, -, hl, -⟩ |
    ⟨o_new, pid, cs, hnid, -, -, hl, -⟩ | ⟨oid, st, -, hl, -⟩ |
    ⟨oid, t, os, hos, hosid, hosnp, hl, -⟩
  · subst hl
    exact absurd (congrArg Order.paid_at (hwf.unique h1 h0 hid)) hne
  · subst hl
    rcases List.mem_append.1 h1 with h | h
    · exact absurd (congrArg Order.paid_at (hwf.unique h h0 hid)) hne
    · simp only [List.mem_singleton] at h
      subst h
      have := hwf.2 o0 h0
      omega
  · subst hl
    obtain ⟨x, hx, rfl⟩ := List.mem_map.1 h1
    rcases List.mem_append.1 hx with h | h
    · rw [OrderRepository.apply_intent_id] at hid
      have hxe : x = o0 := hwf.unique h h0 hid
      subst hxe
      rw [OrderRepository.apply_intent_paid_at] at hne
      exact absurd rfl hne
    · simp only [List.mem_singleton] at h
      subst h
      rw [OrderRepository.apply_intent_id] at hid
      have := hwf.2 o0 h0
      omega
  · subst hl
    obtain ⟨x, hx, rfl⟩ := List.mem_map.1 h1
    rw [OrderRepository.apply_status_id] at hid
    have hxe : x = o0 := hwf.unique hx h0 hid
    subst hxe
    rw [OrderRepository.apply_status_none_paid_at] at hne
    exact absurd rfl hne
  · subst hl
    obtain ⟨x, hx, rfl⟩ := List.mem_map.1 h1
    rw [OrderRepository.apply_status_id] at hid
    have hxe : x = o0 := hwf.unique hx h0 hid
    by_cases hc : (x.id == oid) = true
    · have hid0 : x.id = oid := by simpa using hc
      have hxo : x = os := hwf.unique hx hos (by rw [hid0, hosid])
      unfold OrderRepository.apply_status
      simp only [hc, Option.isSome_some, if_true]
      refine ⟨trivial, ?_, trivial⟩
      rw [← hxe, hxo]
      exact hosnp
    · unfold OrderRepository.apply_status at hne
      simp only [hc, Bool.false_eq_true, if_false] at hne
      rw [hxe] at hne
      exact absurd rfl hne

/-- Well-formedness of the database's orders table. -/
def DB.OrdersWf (db : DB) : Prop := OrdersWfL db.orders db.next_order_id

/-- Every `paid` order carries a `paid_at` timestamp. -/
def DB.Kinv (db : DB) : Prop :=
  ∀ o ∈ db.orders, o.status = .paid → o.paid_at.isSome

theorem Op.step_wf {db : DB} (op : Op) (h : db.OrdersWf) :
    (Op.step db op).OrdersWf :=
  (Op.step_evolve db op).wf h

theorem Op.step_Kinv {db : DB} (op : Op) (hK : db.Kinv) :
    (Op.step db op).Kinv :=
  (Op.step_evolve db op).Kpres hK

theorem Op.self_mem_states (db : DB) (ops : List Op) :
    db ∈ Op.states db ops := by
  cases ops <;> simp [Op.states]

/-- Once set, `paid_at` stays set along any run. -/
theorem Op.run_paid_at_mono :
    ∀ (ops : List Op) (db : DB), db.OrdersWf →
      ∀ o ∈ db.orders, o.paid_at.isSome →
        ∀ o_end ∈ (Op.run db ops).orders, o_end.id = o.id →
          o_end.paid_at.isSome := by
  intro ops
  induction ops with
  | nil =>
    intro db hwf o ho hs o_end hend hid
    have : o_end = o := hwf.unique hend ho hid
    rw [this]
    exact hs
  | cons op ops ih =>
    intro db hwf o ho hs o_end hend hid
    obtain ⟨o', ho', hid', hs'⟩ := (Op.step_evolve db op).persist o ho
    exact ih (Op.step db op) (Op.step_wf op hwf) o' ho' (hs' hs) o_end hend
      (by rw [hid, ← hid'])

/-- A set `paid_at` at the end of a run traces back to an initially set
`paid_at` or to a state in which the order was `paid`. -/
theorem Op.run_paid_at_source :
    ∀ (ops : List Op) (db : DB), db.OrdersWf →
      ∀ o ∈ (Op.run db ops).orders, o.paid_at.isSome →
        (∃ o0, o0 ∈ db.orders ∧ o0.id = o.id ∧ o0.paid_at.isSome) ∨
        (∃ db', db' ∈ Op.states db ops ∧ ∃ o', o' ∈ db'.orders ∧
          o'.id = o.id ∧ o'.status = .paid) := by
  intro ops
  induction ops with
  | nil =>
    intro db hwf o ho hs
    exact Or.inl ⟨o, ho, rfl, hs⟩
  | cons op ops ih =>
    intro db hwf o ho hs
    rcases ih (Op.step db op) (Op.step_wf op hwf) o ho hs with
      ⟨o1, h1, hid1, hs1⟩ | ⟨db', hdb', o', ho', hid', hst'⟩
    · rcases (Op.step_evolve db op).origin o1 h1 hs1 with
        ⟨o0, h0, hid0, hs0⟩ | hpaid
      · exact Or.inl ⟨o0, h0, by rw [hid0, hid1], hs0⟩
      · exact Or.inr ⟨Op.step db op,
          List.mem_cons_of_mem _ (Op.self_mem_states _ ops), o1, h1, hid1,
          hpaid⟩
    · exact Or.inr ⟨db', List.mem_cons_of_mem _ hdb', o', ho', hid', hst'⟩

/-- If some visited state had the order `paid`, the final state has `paid_at`
set for it. -/
theorem Op.run_ever_paid :
    ∀ (ops : List Op) (db : DB), db.OrdersWf → db.Kinv →
      ∀ o_end ∈ (Op.run db ops).orders,
        (∃ db', db' ∈ Op.states db ops ∧ ∃ o', o' ∈ db'.orders ∧
          o'.id = o_end.id ∧ o'.status = .paid) →
        o_end.paid_at.isSome := by
  intro ops
  induction ops with
  | nil =>
    intro db hwf hK o_end hend hex
    obtain ⟨db', hdb', o', ho', hid', hst'⟩ := hex
    simp only [Op.states, List.mem_singleton] at hdb'
    subst hdb'
    have hsome := hK o' ho' hst'
    have : o' = o_end := hwf.unique ho' hend hid'
    rw [← this]
    exact hsome
  | cons op ops ih =>
    intro db hwf hK o_end hend hex
    obtain ⟨db', hdb', o', ho', hid', hst'⟩ := hex
    rcases List.mem_cons.1 hdb' with rfl | hdb'
    · have hsome := hK o' ho' hst'
      obtain ⟨o1, h1, hid1, hs1⟩ := (Op.step_evolve db' op).persist o' ho'
      exact Op.run_paid_at_mono ops (Op.step db' op) (Op.step_wf op hwf) o1 h1
        (hs1 hsome) o_end hend (by rw [← hid', ← hid1])
    · exact ih (Op.step db op) (Op.step_wf op hwf) (Op.step_Kinv op hK) o_end
        hend ⟨db', hdb', o', ho', hid', hst'⟩

theorem DB.init_OrdersWf : DB.init.OrdersWf :=
  ⟨List.Pairwise.nil, by intro o ho; simp [DB.init] at ho⟩

theorem DB.init_Kinv : DB.init.Kinv := by
  intro o ho
  simp [DB.init] at ho

/-- A succeeded webhook event for the payment intent `pi_9` that the sample
world's gateway assigns at order creation. -/
def samplePi9Event : StripeEvent :=
  { id := "evt_9", type := "payment_intent.succeeded"
    payment_intent_id := "pi_9", metadata_order_id := some 0
    last_payment_error_message := none }

/-- Create an order, then reconcile its succeeded payment webhook. -/
def sampleOps : List Op :=
  [Op.createOrder sampleWorld {} 7 .basic none,
   Op.processWebhook sampleWorld samplePi9Event "raw"]

/-- The order as it stands after `sampleOps`. -/
def sampleRunOrder : Order :=
  { id := 0, user_id := 7, package_type := .basic, amount := 999
    currency := "USD", status := .paid, stripe_payment_intent_id := some "pi_9"
    stripe_client_secret := some "cs_9", description := some "Basic Package"
    extra_metadata := none, created_at := 10, paid_at := some 10 }

/-- C5: for every order reachable by running the orchestrator's operations
from the empty store, `paid_at` is non-null iff the order's status is, or at
some visited state was, `paid`; and across any single well-formed step,
`paid_at` changes only on the transition into `paid` (which always sets it) —
no other operation touches it. -/
theorem paid_at_iff_ever_paid :
    (∀ (ops : List Op) (o : Order), o ∈ (Op.run DB.init ops).orders →
      (o.paid_at.isSome ↔ ∃ db', db' ∈ Op.states DB.init ops ∧
        ∃ o', o' ∈ db'.orders ∧ o'.id = o.id ∧ o'.status = .paid)) ∧
    (∀ (db : DB) (op : Op), db.OrdersWf →
      ∀ o ∈ db.orders, ∀ o' ∈ (Op.step db op).orders, o'.id = o.id →
        o'.paid_at ≠ o.paid_at →
        o'.status = .paid ∧ o.status ≠ .paid ∧ o'.paid_at.isSome) := by
  constructor
  · intro ops o ho
    constructor
    · intro hs
      rcases Op.run_paid_at_source ops DB.init DB.init_OrdersWf o ho hs with
        ⟨o0, h0, -, -⟩ | h
      · simp [DB.init] at h0
      · exact h
    · intro hex
      exact Op.run_ever_paid ops DB.init DB.init_OrdersWf DB.init_Kinv o ho hex
  · intro db op hwf o ho o' ho' hid hne
    exact (Op.step_evolve db op).change hwf o ho o' ho' hid hne

theorem paid_at_iff_ever_paid_witness :
    (sampleRunOrder.paid_at.isSome ↔ ∃ db', db' ∈ Op.states DB.init sampleOps ∧
      ∃ o', o' ∈ db'.orders ∧ o'.id = sampleRunOrder.id ∧
        o'.status = .paid) ∧
    ({ samplePendingOrder with status := .paid, paid_at := some 10 } : Order).status = .paid ∧
    samplePendingOrder.status ≠ .paid ∧
    (({ samplePendingOrder with status := .paid, paid_at := some 10 } : Order).paid_at).isSome :=
  ⟨paid_at_iff_ever_paid.1 sampleOps sampleRunOrder (by decide),
   paid_at_iff_ever_paid.2 samplePendingDB
     (Op.processWebhook sampleWorld sampleSucceededEvent "raw")
     ⟨by decide, by decide⟩ samplePendingOrder (by decide)
     { samplePendingOrder with status := .paid, paid_at := some 10 }
     (by decide) (by decide) (by decide)⟩

/-- The effect log of `_handle_payment_failed` on a resolved order: webhook
mark, then the status-store mutation to `failed`, then the audit write, then —
exactly when the broker is up — the `OrderFailed` publish. -/
theorem BillingService.handle_payment_failed_log (w : World) (db : DB)
    (ev : StripeEvent) (rid : Nat) (o : Order)
    (hord : OrderRepository.get_by_payment_intent_id db ev.payment_intent_id
      = some o) :
    ∃ pe, (BillingService.handle_payment_failed w db ev rid).1.log =
      db.log ++ [.webhookMarkProcessed rid true,
        .storeUpdateStatus o.id .failed, .auditWrite o.id "payment_failed"] ++
      (if w.broker_ok then [Effect.publish pe] else []) := by
  have hmem : o ∈ db.orders := List.mem_of_find?_eq_some hord
  have hpm : OrderRepository.apply_status o.id .failed none o ∈
      db.orders.map (OrderRepository.apply_status o.id .failed none) :=
    List.mem_map_of_mem _ hmem
  have hpx : ((OrderRepository.apply_status o.id .failed none o).id
      == o.id) = true := by
    simp [OrderRepository.apply_status]
  have hsome : ((db.orders.map
      (OrderRepository.apply_status o.id .failed none)).find?
        (fun o1 => o1.id == o.id)).isSome :=
    List.find?_isSome.2 ⟨_, hpm, hpx⟩
  obtain ⟨x, hx⟩ := Option.isSome_iff_exists.1 hsome
  have hxid : x.id = o.id := by
    have := List.find?_some hx
    simpa using this
  refine ⟨DomainEvent.orderFailed x.id x.user_id
    (ev.last_payment_error_message.getD "Unknown error") w.now, ?_⟩
  unfold BillingService.handle_payment_failed
  simp only [hord, OrderRepository.update_status,
    WebhookEventRepository.orders_mark_processed, hx]
  unfold PaymentAuditRepository.log_action
    OrderEventPublisher.publish_order_failed OrderEventPublisher.publish
  cases hb : w.broker_ok <;>
    simp [hxid, WebhookEventRepository.mark_processed, List.append_assoc]

/-- With the broker down, `_handle_payment_failed` on a resolved order raises
the publish failure. -/
theorem BillingService.handle_payment_failed_error_of_broker_down (w : World)
    (db : DB) (ev : StripeEvent) (rid : Nat) (o : Order)
    (hord : OrderRepository.get_by_payment_intent_id db ev.payment_intent_id
      = some o)
    (hb : w.broker_ok = false) :
    (BillingService.handle_payment_failed w db ev rid).2
      = .error (.exc "publish failed") := by
  have hmem : o ∈ db.orders := List.mem_of_find?_eq_some hord
  have hpm : OrderRepository.apply_status o.id .failed none o ∈
      db.orders.map (OrderRepository.apply_status o.id .failed none) :=
    List.mem_map_of_mem _ hmem
  have hpx : ((OrderRepository.apply_status o.id .failed none o).id
      == o.id) = true := by
    simp [OrderRepository.apply_status]
  have hsome : ((db.orders.map
      (OrderRepository.apply_status o.id .failed none)).find?
        (fun o1 => o1.id == o.id)).isSome :=
    List.find?_isSome.2 ⟨_, hpm, hpx⟩
  obtain ⟨x, hx⟩ := Option.isSome_iff_exists.1 hsome
  unfold BillingService.handle_payment_failed
  simp only [hord, OrderRepository.update_status,
    WebhookEventRepository.orders_mark_processed, hx]
  unfold PaymentAuditRepository.log_action
    OrderEventPublisher.publish_order_failed OrderEventPublisher.publish
  simp [hb]

/-- With the broker up, `_handle_payment_failed` on a resolved order returns
success. -/
theorem BillingService.handle_payment_failed_ok_of_broker_up (w : World)
    (db : DB) (ev : StripeEvent) (rid : Nat) (o : Order)
    (hord : OrderRepository.get_by_payment_intent_id db ev.payment_intent_id
      = some o)
    (hb : w.broker_ok = true) :
    (BillingService.handle_payment_failed w db ev rid).2 = .ok () := by
  have hmem : o ∈ db.orders := List.mem_of_find?_eq_some hord
  have hpm : OrderRepository.apply_status o.id .failed none o ∈
      db.orders.map (OrderRepository.apply_status o.id .failed none) :=
    List.mem_map_of_mem _ hmem
  have hpx : ((OrderRepository.apply_status o.id .failed none o).id
      == o.id) = true := by
    simp [OrderRepository.apply_status]
  have hsome : ((db.orders.map
      (OrderRepository.apply_status o.id .failed none)).find?
        (fun o1 => o1.id == o.id)).isSome :=
    List.find?_isSome.2 ⟨_, hpm, hpx⟩
  obtain ⟨x, hx⟩ := Option.isSome_iff_exists.1 hsome
  unfold BillingService.handle_payment_failed
  simp only [hord, OrderRepository.update_status,
    WebhookEventRepository.orders_mark_processed, hx]
  unfold PaymentAuditRepository.log_action
    OrderEventPublisher.publish_order_failed OrderEventPublisher.publish
  simp [hb]

/-- `_handle_payment_failed` on a resolved order appends exactly the
`payment_failed` audit entry correlated to the provider event id. -/
theorem BillingService.handle_payment_failed_audits (w : World) (db : DB)
    (ev : StripeEvent) (rid : Nat) (o : Order)
    (hord : OrderRepository.get_by_payment_intent_id db ev.payment_intent_id
      = some o) :
    (BillingService.handle_payment_failed w db ev rid).1.audits =
      db.audits ++
        [{ order_id := o.id, action := "payment_failed"
           old_status := some o.status, new_status := .failed
           stripe_event_id := some ev.id
           details := some ("Error: " ++
             ev.last_payment_error_message.getD "Unknown error")
           created_at := w.now }] := by
  have hmem : o ∈ db.orders := List.mem_of_find?_eq_some hord
  have hpm : OrderRepository.apply_status o.id .failed none o ∈
      db.orders.map (OrderRepository.apply_status o.id .failed none) :=
    List.mem_map_of_mem _ hmem
  have hpx : ((OrderRepository.apply_status o.id .failed none o).id
      == o.id) = true := by
    simp [OrderRepository.apply_status]
  have hsome : ((db.orders.map
      (OrderRepository.apply_status o.id .failed none)).find?
        (fun o1 => o1.id == o.id)).isSome :=
    List.find?_isSome.2 ⟨_, hpm, hpx⟩
  obtain ⟨x, hx⟩ := Option.isSome_iff_exists.1 hsome
  have hxid : x.id = o.id := by
    have := List.find?_some hx
    simpa using this
  unfold BillingService.handle_payment_failed
  simp only [hord, OrderRepository.update_status,
    WebhookEventRepository.orders_mark_processed, hx]
  unfold PaymentAuditRepository.log_action
    OrderEventPublisher.publish_order_failed OrderEventPublisher.publish
  cases hb : w.broker_ok <;> simp [hxid]

/-- The effect log of `_handle_payment_canceled` on a resolved order: webhook
mark, then the status-store mutation to `cancelled`, then the audit write —
and nothing is ever published. -/
theorem BillingService.handle_payment_canceled_log (w : World) (db : DB)
    (ev : StripeEvent) (rid : Nat) (o : Order)
    (hord : OrderRepository.get_by_payment_intent_id db ev.payment_intent_id
      = some o) :
    (BillingService.handle_payment_canceled w db ev rid).1.log =
      db.log ++ [.webhookMarkProcessed rid true,
        .storeUpdateStatus o.id .cancelled,
        .auditWrite o.id "payment_canceled"] := by
  have hmem : o ∈ db.orders := List.mem_of_find?_eq_some hord
  have hpm : OrderRepository.apply_status o.id .cancelled none o ∈
      db.orders.map (OrderRepository.apply_status o.id .cancelled none) :=
    List.mem_map_of_mem _ hmem
  have hpx : ((OrderRepository.apply_status o.id .cancelled none o).id
      == o.id) = true := by
    simp [OrderRepository.apply_status]
  have hsome : ((db.orders.map
      (OrderRepository.apply_status o.id .cancelled none)).find?
        (fun o1 => o1.id == o.id)).isSome :=
    List.find?_isSome.2 ⟨_, hpm, hpx⟩
  obtain ⟨x, hx⟩ := Option.isSome_iff_exists.1 hsome
  have hxid : x.id = o.id := by
    have := List.find?_some hx
    simpa using this
  unfold BillingService.handle_payment_canceled
  simp only [hord, OrderRepository.update_status,
    WebhookEventRepository.orders_mark_processed, hx]
  unfold PaymentAuditRepository.log_action
  simp [hxid, WebhookEventRepository.mark_processed, List.append_assoc]

/-- `_handle_payment_canceled` on a resolved order returns success (there is
no publish step to fail). -/
theorem BillingService.handle_payment_canceled_ok (w : World) (db : DB)
    (ev : StripeEvent) (rid : Nat) (o : Order)
    (hord : OrderRepository.get_by_payment_intent_id db ev.payment_intent_id
      = some o) :
    (BillingService.handle_payment_canceled w db ev rid).2 = .ok () := by
  have hmem : o ∈ db.orders := List.mem_of_find?_eq_some hord
  have hpm : OrderRepository.apply_status o.id .cancelled none o ∈
      db.orders.map (OrderRepository.apply_status o.id .cancelled none) :=
    List.mem_map_of_mem _ hmem
  have hpx : ((OrderRepository.apply_status o.id .cancelled none o).id
      == o.id) = true := by
    simp [OrderRepository.apply_status]
  have hsome : ((db.orders.map
      (OrderRepository.apply_status o.id .cancelled none)).find?
        (fun o1 => o1.id == o.id)).isSome :=
    List.find?_isSome.2 ⟨_, hpm, hpx⟩
  obtain ⟨x, hx⟩ := Option.isSome_iff_exists.1 hsome
  unfold BillingService.handle_payment_canceled
  simp only [hord, OrderRepository.update_status,
    WebhookEventRepository.orders_mark_processed, hx]

/-- `_handle_payment_canceled` on a resolved order appends exactly the
`payment_canceled` audit entry correlated to the provider event id. -/
theorem BillingService.handle_payment_canceled_audits (w : World) (db : DB)
    (ev : StripeEvent) (rid : Nat) (o : Order)
    (hord : OrderRepository.get_by_payment_intent_id db ev.payment_intent_id
      = some o) :
    (BillingService.handle_payment_canceled w db ev rid).1.audits =
      db.audits ++
        [{ order_id := o.id, action := "payment_canceled"
           old_status := some o.status, new_status := .cancelled
           stripe_event_id := some ev.id, details := none
           created_at := w.now }] := by
  have hmem : o ∈ db.orders := List.mem_of_find?_eq_some hord
  have hpm : OrderRepository.apply_status o.id .cancelled none o ∈
      db.orders.map (OrderRepository.apply_status o.id .cancelled none) :=
    List.mem_map_of_mem _ hmem
  have hpx : ((OrderRepository.apply_status o.id .cancelled none o).id
      == o.id) = true := by
    simp [OrderRepository.apply_status]
  have hsome : ((db.orders.map
      (OrderRepository.apply_status o.id .cancelled none)).find?
        (fun o1 => o1.id == o.id)).isSome :=
    List.find?_isSome.2 ⟨_, hpm, hpx⟩
  obtain ⟨x, hx⟩ := Option.isSome_iff_exists.1 hsome
  have hxid : x.id = o.id := by
    have := List.find?_some hx
    simpa using this
  unfold BillingService.handle_payment_canceled
  simp only [hord, OrderRepository.update_status,
    WebhookEventRepository.orders_mark_processed, hx]
  unfold PaymentAuditRepository.log_action
  simp [hxid]

/-- `_handle_payment_canceled` never publishes a domain event. -/
theorem BillingService.handle_payment_canceled_published (w : World) (db : DB)
    (ev : StripeEvent) (rid : Nat) :
    (BillingService.handle_payment_canceled w db ev rid).1.published
      = db.published := by
  unfold BillingService.handle_payment_canceled
  cases hord : OrderRepository.get_by_payment_intent_id db
      ev.payment_intent_id with
  | none => simp [hord]
  | some o =>
    simp only [hord, OrderRepository.update_status,
      WebhookEventRepository.orders_mark_processed]
    cases hf : (db.orders.map
        (OrderRepository.apply_status o.id OrderStatus.cancelled none)).find?
        (fun o1 => o1.id == o.id) with
    | none => simp [hf]
    | some x =>
      simp only [hf]
      unfold PaymentAuditRepository.log_action
      simp

/-- C6: within every single webhook-processing call that applies an order
transition, the side effects occur in the strict order store mutation →
audit write → event publish. For the paid transition (on a not-yet-paid
order) and the failed transition, the effect log extends by exactly webhook
bookkeeping, the status-store mutation, the audit write, and — exactly when
the broker is up — the publish; when the publish fails the store and audit
writes are already committed (the final state carries the status update and
the new audit row) and the failure propagates as the error of the whole
`process_webhook` call. The cancelled transition mutates the store, then
writes its audit, publishes nothing, and succeeds. -/
theorem webhook_transition_effect_order (w : World) (db : DB)
    (ev : StripeEvent) (rid : Nat) (o : Order)
    (hord : OrderRepository.get_by_payment_intent_id db ev.payment_intent_id
      = some o) :
    ((o.status == OrderStatus.paid) = false →
      (w.broker_ok = true →
        ∃ pe, (BillingService.handle_payment_succeeded w db ev rid).1.log =
          db.log ++ [.webhookMarkProcessed rid true,
            .storeUpdateStatus o.id .paid,
            .auditWrite o.id "payment_succeeded", .publish pe] ∧
          (BillingService.handle_payment_succeeded w db ev rid).2 = .ok ()) ∧
      (w.broker_ok = false →
        (BillingService.handle_payment_succeeded w db ev rid).1.log =
          db.log ++ [.webhookMarkProcessed rid true,
            .storeUpdateStatus o.id .paid,
            .auditWrite o.id "payment_succeeded"] ∧
        (BillingService.handle_payment_succeeded w db ev rid).2 =
          .error (.exc "publish failed") ∧
        (∃ arow,
          (BillingService.handle_payment_succeeded w db ev rid).1.audits
            = db.audits ++ [arow] ∧ arow.action = "payment_succeeded") ∧
        (∀ o' ∈ (BillingService.handle_payment_succeeded w db ev rid).1.orders,
          o'.id = o.id → o'.status = .paid)) ∧
      (∀ raw, ev.type = "payment_intent.succeeded" →
        WebhookEventRepository.get_by_stripe_event_id db ev.id = none →
        w.broker_ok = false →
        (BillingService.process_webhook w db ev raw).2 =
          .error (.exc "publish failed"))) ∧
    ((w.broker_ok = true →
        ∃ pe, (BillingService.handle_payment_failed w db ev rid).1.log =
          db.log ++ [.webhookMarkProcessed rid true,
            .storeUpdateStatus o.id .failed,
            .auditWrite o.id "payment_failed", .publish pe] ∧
          (BillingService.handle_payment_failed w db ev rid).2 = .ok ()) ∧
      (w.broker_ok = false →
        (BillingService.handle_payment_failed w db ev rid).1.log =
          db.log ++ [.webhookMarkProcessed rid true,
            .storeUpdateStatus o.id .failed,
            .auditWrite o.id "payment_failed"] ∧
        (BillingService.handle_payment_failed w db ev rid).2 =
          .error (.exc "publish failed") ∧
        (∃ arow, (BillingService.handle_payment_failed w db ev rid).1.audits
          = db.audits ++ [arow] ∧ arow.action = "payment_failed") ∧
        (∀ o' ∈ (BillingService.handle_payment_failed w db ev rid).1.orders,
          o'.id = o.id → o'.status = .failed)) ∧
      (∀ raw, ev.type = "payment_intent.payment_failed" →
        WebhookEventRepository.get_by_stripe_event_id db ev.id = none →
        w.broker_ok = false →
        (BillingService.process_webhook w db ev raw).2 =
          .error (.exc "publish failed"))) ∧
    ((BillingService.handle_payment_canceled w db ev rid).1.log =
        db.log ++ [.webhookMarkProcessed rid true,
          .storeUpdateStatus o.id .cancelled,
          .auditWrite o.id "payment_canceled"] ∧
      (BillingService.handle_payment_canceled w db ev rid).2 = .ok () ∧
      (∃ arow, (BillingService.handle_payment_canceled w db ev rid).1.audits
        = db.audits ++ [arow] ∧ arow.action = "payment_canceled") ∧
      (BillingService.handle_payment_canceled w db ev rid).1.published
        = db.published) := by
  refine ⟨?_, ⟨?_, ?_, ?_⟩, ?_, ?_, ?_, ?_⟩
  · intro hnp
    obtain ⟨pe, hlog⟩ :=
      BillingService.handle_payment_succeeded_log w db ev rid o hord hnp
    refine ⟨?_, ?_, ?_⟩
    · intro hb
      refine ⟨pe, ?_,
        BillingService.handle_payment_succeeded_ok_of_broker_up w db ev rid o
          hord hnp hb⟩
      rw [hlog, hb]
      simp
    · intro hb
      refine ⟨?_,
        BillingService.handle_payment_succeeded_error_of_broker_down w db ev
          rid o hord hnp hb,
        ⟨_, BillingService.handle_payment_succeeded_audits w db ev rid o hord
          hnp, rfl⟩, ?_⟩
      · rw [hlog, hb]
        simp
      · intro o' hmem hid
        rw [BillingService.handle_payment_succeeded_orders w db ev rid o hord
          hnp] at hmem
        exact OrderRepository.apply_status_id_mem o.id .paid (some w.now)
          db.orders o' hmem hid
    · intro raw htype hfresh hb
      rw [BillingService.process_webhook_fresh w db ev raw hfresh]
      have herr :=
        BillingService.handle_payment_succeeded_error_of_broker_down w
        (WebhookEventRepository.mark_processing
          (WebhookEventRepository.create db w.now ev.id
            "payment_intent.succeeded" raw
            (StripeService.extract_order_id_from_event ev)).1 w.now
          (WebhookEventRepository.create db w.now ev.id
            "payment_intent.succeeded" raw
            (StripeService.extract_order_id_from_event ev)).2.id) ev
        (WebhookEventRepository.create db w.now ev.id
          "payment_intent.succeeded" raw
          (StripeService.extract_order_id_from_event ev)).2.id o hord hnp hb
      unfold BillingService.process_webhook_dispatch
      simp only [htype]
      rw [if_pos (by decide :
        (("payment_intent.succeeded" == "payment_intent.succeeded") = true))]
      cases hr : BillingService.handle_payment_succeeded w
          (WebhookEventRepository.mark_processing
            (WebhookEventRepository.create db w.now ev.id
              "payment_intent.succeeded" raw
              (StripeService.extract_order_id_from_event ev)).1 w.now
            (WebhookEventRepository.create db w.now ev.id
              "payment_intent.succeeded" raw
              (StripeService.extract_order_id_from_event ev)).2.id) ev
          (WebhookEventRepository.create db w.now ev.id
            "payment_intent.succeeded" raw
            (StripeService.extract_order_id_from_event ev)).2.id with
      | mk db3 r3 =>
        rw [hr] at herr
        obtain rfl : r3 = .error (.exc "publish failed") := herr
        rfl
  · intro hb
    obtain ⟨pe, hlog⟩ :=
      BillingService.handle_payment_failed_log w db ev rid o hord
    refine ⟨pe, ?_,
      BillingService.handle_payment_failed_ok_of_broker_up w db ev rid o hord
        hb⟩
    rw [hlog, hb]
    simp
  · intro hb
    obtain ⟨pe, hlog⟩ :=
      BillingService.handle_payment_failed_log w db ev rid o hord
    refine ⟨?_,
      BillingService.handle_payment_failed_error_of_broker_down w db ev rid o
        hord hb,
      ⟨_, BillingService.handle_payment_failed_audits w db ev rid o hord,
        rfl⟩, ?_⟩
    · rw [hlog, hb]
      simp
    · intro o' hmem hid
      rw [BillingService.handle_payment_failed_orders w db ev rid o
        hord] at hmem
      exact OrderRepository.apply_status_id_mem o.id .failed none db.orders o'
        hmem hid
  · intro raw htype hfresh hb
    rw [BillingService.process_webhook_fresh w db ev raw hfresh]
    have herr := BillingService.handle_payment_failed_error_of_broker_down w
      (WebhookEventRepository.mark_processing
        (WebhookEventRepository.create db w.now ev.id
          "payment_intent.payment_failed" raw
          (StripeService.extract_order_id_from_event ev)).1 w.now
        (WebhookEventRepository.create db w.now ev.id
          "payment_intent.payment_failed" raw
          (StripeService.extract_order_id_from_event ev)).2.id) ev
      (WebhookEventRepository.create db w.now ev.id
        "payment_intent.payment_failed" raw
        (StripeService.extract_order_id_from_event ev)).2.id o hord hb
    unfold BillingService.process_webhook_dispatch
    simp only [htype]
    rw [if_neg (by decide : ¬ (("payment_intent.payment_failed" ==
      "payment_intent.succeeded") = true))]
    rw [if_pos (by decide : (("payment_intent.payment_failed" ==
      "payment_intent.payment_failed") = true))]
    cases hr : BillingService.handle_payment_failed w
        (WebhookEventRepository.mark_processing
          (WebhookEventRepository.create db w.now ev.id
            "payment_intent.payment_failed" raw
            (StripeService.extract_order_id_from_event ev)).1 w.now
          (WebhookEventRepository.create db w.now ev.id
            "payment_intent.payment_failed" raw
            (StripeService.extract_order_id_from_event ev)).2.id) ev
        (WebhookEventRepository.create db w.now ev.id
          "payment_intent.payment_failed" raw
          (StripeService.extract_order_id_from_event ev)).2.id with
    | mk db3 r3 =>
      rw [hr] at herr
      obtain rfl : r3 = .error (.exc "publish failed") := herr
      rfl
  · exact BillingService.handle_payment_canceled_log w db ev rid o hord
  · exact BillingService.handle_payment_canceled_ok w db ev rid o hord
  · exact ⟨_,
      BillingService.handle_payment_canceled_audits w db ev rid o hord, rfl⟩
  · exact BillingService.handle_payment_canceled_published w db ev rid

theorem webhook_transition_effect_order_witness :
    (∃ pe, (BillingService.handle_payment_succeeded sampleWorld samplePendingDB
        sampleFailedEvent 0).1.log =
      samplePendingDB.log ++ [.webhookMarkProcessed 0 true,
        .storeUpdateStatus samplePendingOrder.id .paid,
        .auditWrite samplePendingOrder.id "payment_succeeded", .publish pe] ∧
      (BillingService.handle_payment_succeeded sampleWorld samplePendingDB
        sampleFailedEvent 0).2 = .ok ()) ∧
    (∃ pe, (BillingService.handle_payment_failed sampleWorld samplePendingDB
        sampleFailedEvent 0).1.log =
      samplePendingDB.log ++ [.webhookMarkProcessed 0 true,
        .storeUpdateStatus samplePendingOrder.id .failed,
        .auditWrite samplePendingOrder.id "payment_failed", .publish pe] ∧
      (BillingService.handle_payment_failed sampleWorld samplePendingDB
        sampleFailedEvent 0).2 = .ok ()) ∧
    ((BillingService.handle_payment_failed sampleBrokerDownWorld
        samplePendingDB sampleFailedEvent 0).1.log =
      samplePendingDB.log ++ [.webhookMarkProcessed 0 true,
        .storeUpdateStatus samplePendingOrder.id .failed,
        .auditWrite samplePendingOrder.id "payment_failed"] ∧
      (BillingService.handle_payment_failed sampleBrokerDownWorld
        samplePendingDB sampleFailedEvent 0).2 =
        .error (.exc "publish failed") ∧
      (∃ arow, (BillingService.handle_payment_failed sampleBrokerDownWorld
        samplePendingDB sampleFailedEvent 0).1.audits =
          samplePendingDB.audits ++ [arow] ∧
        arow.action = "payment_failed") ∧
      (∀ o' ∈ (BillingService.handle_payment_failed sampleBrokerDownWorld
          samplePendingDB sampleFailedEvent 0).1.orders,
        o'.id = samplePendingOrder.id → o'.status = .failed)) ∧
    (BillingService.process_webhook sampleBrokerDownWorld samplePendingDB
        sampleFailedEvent "raw").2 = .error (.exc "publish failed") ∧
    (BillingService.handle_payment_canceled sampleWorld samplePendingDB
        sampleFailedEvent 0).1.log =
      samplePendingDB.log ++ [.webhookMarkProcessed 0 true,
        .storeUpdateStatus samplePendingOrder.id .cancelled,
        .auditWrite samplePendingOrder.id "payment_canceled"] ∧
    (BillingService.handle_payment_canceled sampleWorld samplePendingDB
        sampleFailedEvent 0).1.published = samplePendingDB.published :=
  ⟨((webhook_transition_effect_order sampleWorld samplePendingDB
      sampleFailedEvent 0 samplePendingOrder (by decide)).1 (by decide)).1 rfl,
   (webhook_transition_effect_order sampleWorld samplePendingDB
      sampleFailedEvent 0 samplePendingOrder (by decide)).2.1.1 rfl,
   (webhook_transition_effect_order sampleBrokerDownWorld samplePendingDB
      sampleFailedEvent 0 samplePendingOrder (by decide)).2.1.2.1 rfl,
   (webhook_transition_effect_order sampleBrokerDownWorld samplePendingDB
      sampleFailedEvent 0 samplePendingOrder (by decide)).2.1.2.2 "raw" rfl
      (by decide) rfl,
   (webhook_transition_effect_order sampleWorld samplePendingDB
      sampleFailedEvent 0 samplePendingOrder (by decide)).2.2.1,
   (webhook_transition_effect_order sampleWorld samplePendingDB
      sampleFailedEvent 0 samplePendingOrder (by decide)).2.2.2.2.2⟩
